import Mathlib

set_option maxHeartbeats 1000000
set_option maxRecDepth 8000

/-!
Verification development for the staged customer-support workflow engine.

The embedding below translates the data model (`src/models.py`), the MCP
ability registry (`src/mcp_client.py`), the LangGraph workflow engine
(`src/langgraph_agent.py`) and the simplified engine (`src/simple_agent.py`)
into executable Lean definitions.  Python dict/JSON data is modelled by
`JValue`; Python exceptions are modelled by `Except String`; `datetime.now()`
is modelled by a logical clock (`Nat` tick) threaded through the run.
Remote provider behaviour (`MCPClient._simulate_server_call`, which the
source marks as a placeholder for a real HTTP call) is the parameterisation
seam: engines take the handler as an environment argument, and the canned
tables from the source are one concrete instantiation.
-/

/-- Python/JSON values, as produced and consumed by the ability providers
and stored in the mutable ticket state. -/
inductive JValue where
  | str : String → JValue
  | num : Int → JValue
  | bool : Bool → JValue
  | null : JValue
  | arr : List JValue → JValue
  | obj : List (String × JValue) → JValue
deriving Repr

/-- A Python dict with string keys (insertion ordered, as in CPython). -/
abbrev JObj := List (String × JValue)

/-- Dict lookup (`d[k]` presence / `d.get(k)`). -/
def objLookup : JObj → String → Option JValue
  | [], _ => none
  | (k, v) :: rest, key => if k = key then some v else objLookup rest key

/-- Dict assignment `d[k] = v`: existing key keeps its position, new keys
are appended (CPython insertion order). -/
def objInsert : JObj → String → JValue → JObj
  | [], k, v => [(k, v)]
  | (k1, v1) :: rest, k, v =>
    if k1 = k then (k, v) :: rest else (k1, v1) :: objInsert rest k v

/-- Python `target.update(src)` for two dicts. -/
def objUpdate (target : JObj) (src : JObj) : JObj :=
  src.foldl (fun acc kv => objInsert acc kv.1 kv.2) target

/-- Python `v.get(key, default)` on an optional value: `None.get` and
`.get` on a non-dict raise AttributeError; on a dict it is total. -/
def jget (v : Option JValue) (key : String) (default : JValue) :
    Except String JValue :=
  match v with
  | none => .error "AttributeError: NoneType object has no attribute get"
  | some (.obj o) => .ok ((objLookup o key).getD default)
  | some _ => .error "AttributeError: object has no attribute get"

/-- Python subscript `v[key]`: KeyError when absent, TypeError on non-dict. -/
def pyIndex (v : JValue) (key : String) : Except String JValue :=
  match v with
  | .obj o =>
    match objLookup o key with
    | some x => .ok x
    | none => .error ("KeyError: " ++ key)
  | _ => .error "TypeError: object is not subscriptable"

/-- Python `target.update(arg)` where `arg` may be any value (raises
TypeError unless it is a mapping; `None` also raises). -/
def pyUpdate (target : JObj) (src : Option JValue) : Except String JObj :=
  match src with
  | some (.obj o) => .ok (objUpdate target o)
  | _ => .error "TypeError: update argument is not a mapping"

/-- Python truthiness of a value. -/
def jtruthy : JValue → Bool
  | .str s => s ≠ ""
  | .num n => n ≠ 0
  | .bool b => b
  | .null => false
  | .arr xs => !xs.isEmpty
  | .obj o => !o.isEmpty

/-- Python truthiness of an optional value (`None` is falsy). -/
def optTruthy : Option JValue → Bool
  | none => false
  | some v => jtruthy v

/-- Python comparison `v < n` against an int: numbers and bools compare,
anything else raises TypeError. -/
def jlt (v : JValue) (n : Int) : Except String Bool :=
  match v with
  | .num m => .ok (decide (m < n))
  | .bool b => .ok (decide ((if b then (1 : Int) else 0) < n))
  | _ => .error "TypeError: unorderable types"

/-- Python comparison `v >= n` against an int. -/
def jge (v : JValue) (n : Int) : Except String Bool :=
  match v with
  | .num m => .ok (decide (n ≤ m))
  | .bool b => .ok (decide (n ≤ (if b then (1 : Int) else 0)))
  | _ => .error "TypeError: unorderable types"

/-- Python `str(v)` as used by f-string interpolation, for the value shapes
the engine actually formats (scalars; containers are never formatted because
the numeric comparison guarding the only format site rejects them first). -/
def jformat : JValue → String
  | .str s => s
  | .num n => toString n
  | .bool b => if b then "True" else "False"
  | .null => "None"
  | .arr _ => ""
  | .obj _ => ""

/-- Python `str.upper()` (ASCII, as exercised by the source data). -/
def upperStr (s : String) : String := ⟨s.data.map Char.toUpper⟩

/-- Python `str.lower()` (ASCII, as exercised by the source data). -/
def lowerStr (s : String) : String := ⟨s.data.map Char.toLower⟩

/-- Python `str.strip()`. -/
def stripStr (s : String) : String :=
  ⟨(s.data.dropWhile Char.isWhitespace).reverse.dropWhile Char.isWhitespace
    |>.reverse⟩

/-- Whether the character list starts with the given pattern. -/
def charsStartWith : List Char → List Char → Bool
  | _, [] => true
  | [], _ :: _ => false
  | c :: cs, p :: ps => c = p && charsStartWith cs ps

/-- Whether the pattern occurs anywhere in the character list. -/
def charsContain : List Char → List Char → Bool
  | [], pat => charsStartWith [] pat
  | c :: cs, pat => charsStartWith (c :: cs) pat || charsContain cs pat

/-- Python substring test `pat in s`. -/
def containsToken (s pat : String) : Bool := charsContain s.data pat.data

/-- Ticket priority levels (`models.Priority`). -/
inductive Priority where
  | low | medium | high | critical
deriving Repr, DecidableEq

/-- The string value of a priority (pydantic str-enum value). -/
def Priority.value : Priority → String
  | .low => "low"
  | .medium => "medium"
  | .high => "high"
  | .critical => "critical"

/-- Ticket status (`models.Status`). -/
inductive Status where
  | pending | resolved | escalated | closed
deriving Repr, DecidableEq

/-- The string value of a status. -/
def Status.value : Status → String
  | .pending => "pending"
  | .resolved => "resolved"
  | .escalated => "escalated"
  | .closed => "closed"

/-- Stage execution modes (`models.StageMode`). -/
inductive StageMode where
  | entry_only | deterministic | non_deterministic
  | human_interaction | output_only
deriving Repr, DecidableEq

/-- The string value of a stage mode. -/
def StageMode.value : StageMode → String
  | .entry_only => "entry_only"
  | .deterministic => "deterministic"
  | .non_deterministic => "non_deterministic"
  | .human_interaction => "human_interaction"
  | .output_only => "output_only"

/-- Input payload schema (`models.InputPayload`). -/
structure InputPayload where
  customer_name : String
  email : String
  query : String
  priority : Priority
  ticket_id : String
deriving Repr

/-- Record of one ability execution (`models.AbilityExecution`). -/
structure AbilityExecution where
  ability_name : String
  server_used : String
  execution_time : Nat
  status : String
  result : Option JValue := none
  error : Option String := none
deriving Repr

/-- Log entry for one stage attempt (`models.StageLog`). -/
structure StageLog where
  stage_name : String
  stage_id : Nat
  emoji : String
  mode : StageMode
  abilities_executed : List AbilityExecution := []
  start_time : Nat
  end_time : Option Nat := none
  success : Bool := true
  error : Option String := none
deriving Repr

/-- The single mutable aggregate threaded through a run
(`models.CustomerSupportState`).  Fields assigned from provider results can
hold arbitrary values because pydantic does not validate on assignment, so
they are typed `JValue` here. -/
structure CustomerSupportState where
  input_payload : InputPayload
  current_stage : Nat := 1
  processing_complete : Bool := false
  extracted_entities : JObj := []
  normalized_fields : JObj := []
  enriched_data : JObj := []
  knowledge_base_results : JValue := .arr []
  solution_scores : List (JValue × JValue) := []
  escalation_needed : JValue := .bool false
  escalation_reason : Option JValue := none
  confidence_score : JValue := .num 0
  clarification_requested : Bool := false
  clarification_question : Option JValue := none
  human_response : Option JValue := none
  generated_response : Option JValue := none
  api_calls_executed : JValue := .arr []
  notifications_sent : JValue := .arr []
  ticket_status : Status := .pending
  stage_logs : List StageLog := []
  created_at : Nat := 0
  updated_at : Nat := 0
deriving Repr

/-- Final output payload (`models.OutputPayload`). -/
structure OutputPayload where
  ticket_id : String
  status : Status
  response : Option JValue
  confidence_score : JValue
  escalation_reason : Option JValue
  stage_logs : List StageLog
  final_payload : JValue
  processing_time : Nat
  agent_name : String := "Langie"
  agent_version : String := "1.0.0"
  completion_time : Nat
deriving Repr

/-- The `input_payload.dict()` view passed to abilities (pydantic str-enum
priority behaves as its string value). -/
def inputDict (i : InputPayload) : JObj :=
  [("customer_name", .str i.customer_name),
   ("email", .str i.email),
   ("query", .str i.query),
   ("priority", .str i.priority.value),
   ("ticket_id", .str i.ticket_id)]

/-- Python attribute call `v.lower()` / `v.upper()` etc.: raises
AttributeError unless the value is a string. -/
def pyStrTransform (v : JValue) (f : String → String) : Except String JValue :=
  match v with
  | .str s => .ok (.str (f s))
  | _ => .error "AttributeError: object has no string methods"

/-- The structured response returned for a capability name absent from a
canned provider table (`responses.get(ability_name, ...)` default). -/
def notFoundResponse : JValue :=
  .obj [("status", .str "ability_not_found"), ("result", .null)]

/-- Capability names present in the ATLAS canned table
(`MCPClient._atlas_ability_response`). -/
def knownAtlasAbilities : List String :=
  ["extract_entities", "enrich_records", "clarify_question", "extract_answer",
   "knowledge_base_search", "escalation_decision", "update_ticket",
   "close_ticket", "execute_api_calls", "trigger_notifications"]

/-- Simulated ATLAS server responses (`MCPClient._atlas_ability_response`).
The Python code builds the full response dict and then looks up the ability
name with a not-found default; the ATLAS dict construction is total, so the
name-indexed chain below is semantically the same.  Long quoted strings are
transcribed without apostrophe characters. -/
def atlasAbilityResponse (ability_name : String) (payload : JObj) :
    Except String JValue :=
  if ability_name = "extract_entities" then
    .ok (.obj [("entities", .obj
      [("product", .str "User Account"),
       ("issue_type", .str "Authentication"),
       ("urgency", .str "High"),
       ("account_id", .str "user_12345")])])
  else if ability_name = "enrich_records" then
    .ok (.obj
      [("sla_info", .obj
        [("response_time", .str "2 hours"),
         ("resolution_time", .str "24 hours")]),
       ("historical_tickets", .arr
        [.obj [("ticket_id", .str "T-001"),
               ("issue", .str "Password reset"),
               ("resolved", .bool true)],
         .obj [("ticket_id", .str "T-002"),
               ("issue", .str "Account locked"),
               ("resolved", .bool true)]])])
  else if ability_name = "clarify_question" then
    .ok (.obj [("question",
      .str "Have you tried using the Forgot Password feature on the login page?")])
  else if ability_name = "extract_answer" then
    .ok (.obj [("answer",
      .str "Yes, I tried the forgot password feature but I am not receiving the reset email.")])
  else if ability_name = "knowledge_base_search" then
    .ok (.obj [("results", .arr
      [.obj [("title", .str "Email delivery issues"),
             ("content", .str "Check spam folder, verify email address, contact support if no email received within 10 minutes"),
             ("relevance", .str "0.95")],
       .obj [("title", .str "Password reset troubleshooting"),
             ("content", .str "Common issues include blocked emails, incorrect email address, or account lockout"),
             ("relevance", .str "0.89")]])])
  else if ability_name = "escalation_decision" then
    .ok (.obj [("escalate", .bool false),
               ("reason", .str "Standard troubleshooting available")])
  else if ability_name = "update_ticket" then
    .ok (.obj [("ticket_updated", .bool true),
               ("new_status", .str "In Progress")])
  else if ability_name = "close_ticket" then
    .ok (.obj [("ticket_closed", .bool true),
               ("closure_reason", .str "Resolved")])
  else if ability_name = "execute_api_calls" then
    .ok (.obj [("api_calls", .arr
      [.obj [("api", .str "reset_password_email"),
             ("status", .str "triggered"),
             ("response", .str "Email sent")],
       .obj [("api", .str "unlock_account"),
             ("status", .str "success"),
             ("response", .str "Account unlocked")]])])
  else if ability_name = "trigger_notifications" then
    .ok (.obj [("notifications", .arr
      [.obj [("type", .str "email"),
             ("recipient", (objLookup payload "email").getD (.str "")),
             ("status", .str "sent")],
       .obj [("type", .str "sms"),
             ("recipient", (objLookup payload "phone").getD (.str "")),
             ("status", .str "sent")]])])
  else
    .ok notFoundResponse

/-- Capability names present in the COMMON canned table
(`MCPClient._common_ability_response`). -/
def knownCommonAbilities : List String :=
  ["parse_request_text", "normalize_fields", "add_flags_calculations",
   "solution_evaluation", "response_generation"]

/-- The canned `response_generation` text (f-string from the source,
transcribed without apostrophe characters). -/
def responseGenerationText (customer : JValue) (ticket : JValue) : String :=
  "Dear " ++ jformat customer ++ ",\n\n" ++
  "Thank you for contacting our support team regarding your login issue.\n\n" ++
  "I understand you are having trouble accessing your account due to password authentication issues. Based on our investigation, I have taken the following steps to resolve this:\n\n" ++
  "1. Unlocked your account (it appears to have been temporarily locked due to multiple failed login attempts)\n" ++
  "2. Sent a new password reset email to your registered address\n" ++
  "3. Verified that our email system is functioning properly\n\n" ++
  "Please check your inbox (and spam folder) for the password reset email. If you do not receive it within 10 minutes, please reply to this ticket and we will explore alternative solutions.\n\n" ++
  "For immediate assistance with urgent transactions, you can also call our priority support line at 1-800-SUPPORT.\n\n" ++
  "Best regards,\nLangie - Customer Support Agent\nTicket ID: " ++
  jformat ticket

/-- Simulated COMMON server responses (`MCPClient._common_ability_response`).
The Python code evaluates the whole response dict before the name lookup, so
the string operations inside `normalize_fields` run (and can raise) for
every capability name; the monadic prefix below mirrors that. -/
def commonAbilityResponse (ability_name : String) (payload : JObj) (t : Nat) :
    Except String JValue := do
  let emailNorm ← pyStrTransform ((objLookup payload "email").getD (.str ""))
    (fun s => stripStr (lowerStr s))
  let prioNorm ← pyStrTransform ((objLookup payload "priority").getD (.str ""))
    upperStr
  let genResponse := responseGenerationText
    ((objLookup payload "customer_name").getD (.str "Customer"))
    ((objLookup payload "ticket_id").getD (.str "Unknown"))
  .ok (if ability_name = "parse_request_text" then
    .obj [("structured_data", .obj
      [("issue_category", .str "Authentication"),
       ("priority_level", .str "High"),
       ("keywords", .arr [.str "login", .str "password", .str "incorrect",
                          .str "urgent", .str "transaction"]),
       ("sentiment", .str "frustrated")])]
  else if ability_name = "normalize_fields" then
    .obj [("normalized", .obj
      [("email", emailNorm),
       ("priority", prioNorm),
       ("timestamp", .str (toString t))])]
  else if ability_name = "add_flags_calculations" then
    .obj [("flags", .obj
      [("high_priority", .bool true),
       ("sla_risk", .bool false),
       ("escalation_score", .num 25)])]
  else if ability_name = "solution_evaluation" then
    .obj [("solutions", .arr
      [.obj [("solution", .str "Send password reset email"), ("score", .num 85)],
       .obj [("solution", .str "Unlock account manually"), ("score", .num 92)],
       .obj [("solution", .str "Escalate to security team"), ("score", .num 40)]]),
      ("best_score", .num 92)]
  else if ability_name = "response_generation" then
    .obj [("response", .str genResponse)]
  else notFoundResponse)

/-- Dispatch of `MCPClient._simulate_server_call`: route by server name;
unrecognised servers get the unknown-server result (not an error). -/
def simulateServerCall (server_name : String) :
    String → JObj → Nat → Except String JValue :=
  fun ability_name payload t =>
    if server_name = "ATLAS" then atlasAbilityResponse ability_name payload
    else if server_name = "COMMON" then
      commonAbilityResponse ability_name payload t
    else .ok (.obj [("status", .str "unknown_server"), ("result", .null)])

/-- One MCP ability call (`MCPClient.execute_ability`).  The try/except of
the source is the `Except` match: any failure signalled by the handler is
caught and converted into an `AbilityExecution` with error status; the
function itself is total, so nothing escapes the registry boundary. -/
def clientExecuteAbility
    (handler : String → JObj → Nat → Except String JValue)
    (server_name ability_name : String) (payload : JObj) (t : Nat) :
    AbilityExecution :=
  match handler ability_name payload t with
  | .ok response =>
    { ability_name := ability_name, server_used := server_name,
      execution_time := t, status := "success", result := some response }
  | .error e =>
    { ability_name := ability_name, server_used := server_name,
      execution_time := t, status := "error", error := some e }

/-- The provider registry keys (`MCPManager.__init__` clients dict). -/
def managerClients : List String := ["ATLAS", "COMMON"]

/-- `MCPManager.execute_ability`: unknown server names return a structured
error record; known servers delegate to the client, whose behaviour is the
`remote` handler (the seam the source marks as replaceable by a real HTTP
call). -/
def managerExecuteAbility
    (remote : String → String → JObj → Nat → Except String JValue)
    (server_name ability_name : String) (payload : JObj) (t : Nat) :
    AbilityExecution :=
  if server_name ∈ managerClients then
    clientExecuteAbility (remote server_name) server_name ability_name payload t
  else
    { ability_name := ability_name, server_used := server_name,
      execution_time := t, status := "error",
      error := some ("Unknown server: " ++ server_name) }

/-- `MCPManager.close`: iterates the clients dict and releases each client
connection exactly once, in registry order. -/
def managerCloseOrder : List String := managerClients

/-- Serialization of an `AbilityExecution` to a dict (pydantic `.dict()`). -/
def abilityExecutionDict (e : AbilityExecution) : JValue :=
  .obj [("ability_name", .str e.ability_name),
        ("server_used", .str e.server_used),
        ("execution_time", .num e.execution_time),
        ("status", .str e.status),
        ("result", e.result.getD .null),
        ("error", match e.error with | some m => .str m | none => .null)]

/-- Serialization of a `StageLog` to a dict (pydantic `.dict()`). -/
def stageLogDict (l : StageLog) : JValue :=
  .obj [("stage_name", .str l.stage_name),
        ("stage_id", .num l.stage_id),
        ("emoji", .str l.emoji),
        ("mode", .str l.mode.value),
        ("abilities_executed", .arr (l.abilities_executed.map abilityExecutionDict)),
        ("start_time", .num l.start_time),
        ("end_time", match l.end_time with | some t => .num t | none => .null),
        ("success", .bool l.success),
        ("error", match l.error with | some m => .str m | none => .null)]

/-- Serialization of the full state to a dict (pydantic `.dict()`), used by
the internal `output_payload` ability and the final payload.  The
`solution_scores` dict may have non-string keys, so it is rendered as a pair
list here. -/
def stateDict (st : CustomerSupportState) : JValue :=
  .obj [("input_payload", .obj (inputDict st.input_payload)),
        ("current_stage", .num st.current_stage),
        ("processing_complete", .bool st.processing_complete),
        ("extracted_entities", .obj st.extracted_entities),
        ("normalized_fields", .obj st.normalized_fields),
        ("enriched_data", .obj st.enriched_data),
        ("knowledge_base_results", st.knowledge_base_results),
        ("solution_scores",
          .arr (st.solution_scores.map (fun p => .arr [p.1, p.2]))),
        ("escalation_needed", st.escalation_needed),
        ("escalation_reason", st.escalation_reason.getD .null),
        ("confidence_score", st.confidence_score),
        ("clarification_requested", .bool st.clarification_requested),
        ("clarification_question", st.clarification_question.getD .null),
        ("human_response", st.human_response.getD .null),
        ("generated_response", st.generated_response.getD .null),
        ("api_calls_executed", st.api_calls_executed),
        ("notifications_sent", st.notifications_sent),
        ("ticket_status", .str st.ticket_status.value),
        ("stage_logs", .arr (st.stage_logs.map stageLogDict)),
        ("created_at", .num st.created_at),
        ("updated_at", .num st.updated_at)]

/-- The ticket state together with the logical clock standing in for
`datetime.now()` during one workflow run. -/
structure Sim where
  st : CustomerSupportState
  clock : Nat
deriving Repr

/-- Per-run environment of the LangGraph engine: the remote ability handler
(the `_simulate_server_call` seam) and the two LLM advisory calls (opaque
collaborators whose responses, or failures, are inputs to the run). -/
structure Env where
  remote : String → String → JObj → Nat → Except String JValue
  askLLM : Except String String
  decideLLM : Except String String

/-- Apply a function to the last element of a list (a Python mutation of an
object aliased at the end of a list). -/
def updateLast {α : Type} (f : α → α) : List α → List α
  | [] => []
  | [a] => [f a]
  | a :: b :: rest => a :: updateLast f (b :: rest)

/-- Mutate the in-flight stage log (the `stage_log` object appended by
`_log_stage_start` and aliased from `state.stage_logs`). -/
def modifyLastLog (f : StageLog → StageLog) (s : Sim) : Sim :=
  { s with st := { s.st with stage_logs := updateLast f s.st.stage_logs } }

/-- `LangGraphCustomerSupportAgent._log_stage_start`: open a `StageLog` with
the current time, append it to the state, and set the current stage. -/
def logStageStart (stage_name : String) (stage_id : Nat) (emoji : String)
    (mode : StageMode) (s : Sim) : Sim :=
  let log : StageLog :=
    { stage_name := stage_name, stage_id := stage_id, emoji := emoji,
      mode := mode, start_time := s.clock }
  { s with
    st := { s.st with
      stage_logs := s.st.stage_logs ++ [log], current_stage := stage_id },
    clock := s.clock + 1 }

/-- `LangGraphCustomerSupportAgent._log_stage_complete`: close the in-flight
log with the end time and the success flag; the error text is recorded only
when truthy (a non-empty string), exactly as the `if error:` guard does. -/
def logStageComplete (success : Bool) (error : Option String) (s : Sim) : Sim :=
  let s1 := modifyLastLog (fun log =>
    let log1 := { log with end_time := some s.clock, success := success }
    match error with
    | some e => if e = "" then log1 else { log1 with error := some e }
    | none => log1) s
  { s1 with clock := s1.clock + 1 }

/-- Append an `AbilityExecution` to the in-flight stage log
(`stage_log.abilities_executed.append(execution)`). -/
def pushExec (e : AbilityExecution) : Sim → Sim :=
  modifyLastLog (fun log =>
    { log with abilities_executed := log.abilities_executed ++ [e] })

/-- The `results` dict accumulated by `_execute_abilities`: ability name to
the value stored (which is `None` when the MCP execution failed). -/
abbrev AbilityResults := List (String × Option JValue)

/-- Lookup in the results dict (`name in results` / `results[name]`). -/
def resultsFind : AbilityResults → String → Option (Option JValue)
  | [], _ => none
  | (k, v) :: rest, key => if k = key then some v else resultsFind rest key

/-- Insertion into the results dict (`results[name] = value`). -/
def resultsInsert : AbilityResults → String → Option JValue → AbilityResults
  | [], k, v => [(k, v)]
  | (k1, v1) :: rest, k, v =>
    if k1 = k then (k, v) :: rest else (k1, v1) :: resultsInsert rest k v

/-- Python `results.get(name, {})`. -/
def resultsGetD (r : AbilityResults) (k : String) (d : JValue) : Option JValue :=
  (resultsFind r k).getD (some d)

/-- One entry of a stage's required-ability list (name plus server). -/
structure AbilityConfig where
  name : String
  server : String

/-- `LangGraphCustomerSupportAgent._execute_internal_ability`: the built-in
internal handler set; pure state-local responses, never failing. -/
def executeInternalAbility (ability_name : String)
    (st : CustomerSupportState) : JValue :=
  if ability_name = "accept_payload" then
    .obj [("status", .str "payload_accepted"),
          ("ticket_id", .str st.input_payload.ticket_id)]
  else if ability_name = "store_answer" then
    .obj [("status", .str "answer_stored")]
  else if ability_name = "store_data" then
    .obj [("status", .str "data_stored")]
  else if ability_name = "update_payload" then
    .obj [("status", .str "payload_updated")]
  else if ability_name = "output_payload" then
    .obj [("status", .str "payload_output"), ("final_payload", stateDict st)]
  else
    .obj [("status", .str "unknown_internal_ability")]

/-- Loop body of `LangGraphCustomerSupportAgent._execute_abilities`:
internal abilities are answered in place (and leave the stage log alone);
every other server goes through the MCP manager and the resulting
`AbilityExecution` is appended to the in-flight stage log. -/
def execAbilitiesAux (env : Env) (payload : JObj) :
    List AbilityConfig → Sim → AbilityResults → Sim × AbilityResults
  | [], s, acc => (s, acc)
  | ab :: rest, s, acc =>
    if ab.server = "internal" then
      let r := executeInternalAbility ab.name s.st
      execAbilitiesAux env payload rest s (resultsInsert acc ab.name (some r))
    else
      let ex := managerExecuteAbility env.remote ab.server ab.name payload s.clock
      let s1 := pushExec ex { s with clock := s.clock + 1 }
      execAbilitiesAux env payload rest s1 (resultsInsert acc ab.name ex.result)

/-- `LangGraphCustomerSupportAgent._execute_abilities`: the payload passed to
remote abilities is the input payload dict, computed once. -/
def execAbilities (env : Env) (s : Sim) (abilities : List AbilityConfig) :
    Sim × AbilityResults :=
  execAbilitiesAux env (inputDict s.st.input_payload) abilities s []

/-- Run the statements of a stage body in order; an exception stops the
sequence but keeps every mutation already applied (no rollback). -/
def runSteps : Sim → List (Sim → Except String Sim) → Sim × Option String
  | s, [] => (s, none)
  | s, f :: fs =>
    match f s with
    | .ok s1 => runSteps s1 fs
    | .error e => (s, some e)

/-- Close a stage from the outcome of its body: the except-branch records
the error and marks the stage unsuccessful, the normal branch closes it as
successful; either way control returns to the graph. -/
def finishStage (r : Sim × Option String) : Sim :=
  match r.2 with
  | none => logStageComplete true none r.1
  | some e => logStageComplete false (some e) r.1

/-- Stage 1 INTAKE (`stage_01_intake`): accept the payload via the internal
ability; the body has no failing statement. -/
def stage01Intake (env : Env) (s : Sim) : Sim :=
  let s1 := logStageStart "INTAKE" 1 "📥" .entry_only s
  let (s2, _results) := execAbilities env s1 [⟨"accept_payload", "internal"⟩]
  finishStage (runSteps s2 [])

/-- Stage 2 UNDERSTAND (`stage_02_understand`): parse and extract entities,
merging both results into `extracted_entities`. -/
def stage02Understand (env : Env) (s : Sim) : Sim :=
  let s1 := logStageStart "UNDERSTAND" 2 "🧠" .deterministic s
  let (s2, results) := execAbilities env s1
    [⟨"parse_request_text", "COMMON"⟩, ⟨"extract_entities", "ATLAS"⟩]
  finishStage (runSteps s2
    [fun sim =>
      match resultsFind results "parse_request_text" with
      | none => .ok sim
      | some v => do
        let d ← jget v "structured_data" (.obj [])
        let ee ← pyUpdate sim.st.extracted_entities (some d)
        .ok { sim with st := { sim.st with extracted_entities := ee } },
     fun sim =>
      match resultsFind results "extract_entities" with
      | none => .ok sim
      | some v => do
        let d ← jget v "entities" (.obj [])
        let ee ← pyUpdate sim.st.extracted_entities (some d)
        .ok { sim with st := { sim.st with extracted_entities := ee } }])

/-- One iteration of the `for ability, result in results.items()` loop of
`stage_03_prepare`. -/
def prepareApplyStep (kv : String × Option JValue) (sim : Sim) :
    Except String Sim :=
  if kv.1 = "normalize_fields" then do
    let d ← jget kv.2 "normalized" (.obj [])
    let nf ← pyUpdate sim.st.normalized_fields (some d)
    .ok { sim with st := { sim.st with normalized_fields := nf } }
  else if kv.1 = "enrich_records" then do
    let ed ← pyUpdate sim.st.enriched_data kv.2
    .ok { sim with st := { sim.st with enriched_data := ed } }
  else if kv.1 = "add_flags_calculations" then do
    let d ← jget kv.2 "flags" (.obj [])
    let ed ← pyUpdate sim.st.enriched_data (some d)
    .ok { sim with st := { sim.st with enriched_data := ed } }
  else .ok sim

/-- Stage 3 PREPARE (`stage_03_prepare`): normalize and enrich data,
iterating the results dict in insertion order. -/
def stage03Prepare (env : Env) (s : Sim) : Sim :=
  let s1 := logStageStart "PREPARE" 3 "🛠" .deterministic s
  let (s2, results) := execAbilities env s1
    [⟨"normalize_fields", "COMMON"⟩, ⟨"enrich_records", "ATLAS"⟩,
     ⟨"add_flags_calculations", "COMMON"⟩]
  finishStage (runSteps s2 (results.map prepareApplyStep))

/-- Stage 4 ASK (`stage_04_ask`): the LLM advisory decides whether
clarification is needed (the engine only checks the response text for the
token YES); if so, the clarify ability runs and the two assignments follow
as separate statements. -/
def stage04Ask (env : Env) (s : Sim) : Sim :=
  let s1 := logStageStart "ASK" 4 "❓" .human_interaction s
  match env.askLLM with
  | .error e => logStageComplete false (some e) s1
  | .ok content =>
    let clarification_needed := containsToken (upperStr content) "YES"
    if clarification_needed then
      let (s2, results) := execAbilities env s1 [⟨"clarify_question", "ATLAS"⟩]
      finishStage (runSteps s2
        [fun sim =>
          .ok { sim with st := { sim.st with clarification_requested := true } },
         fun sim => do
          let q ← jget (resultsGetD results "clarify_question" (.obj []))
            "question" (.str "")
          .ok { sim with st := { sim.st with clarification_question := some q } }])
    else finishStage (runSteps s1 [])

/-- Stage 5 WAIT (`stage_05_wait`): extract and store the human answer. -/
def stage05Wait (env : Env) (s : Sim) : Sim :=
  let s1 := logStageStart "WAIT" 5 "⏳" .deterministic s
  let (s2, results) := execAbilities env s1
    [⟨"extract_answer", "ATLAS"⟩, ⟨"store_answer", "internal"⟩]
  finishStage (runSteps s2
    [fun sim =>
      match resultsFind results "extract_answer" with
      | none => .ok sim
      | some v => do
        let a ← jget v "answer" (.str "")
        .ok { sim with st := { sim.st with human_response := some a } }])

/-- Stage 6 RETRIEVE (`stage_06_retrieve`): search the knowledge base and
store the results. -/
def stage06Retrieve (env : Env) (s : Sim) : Sim :=
  let s1 := logStageStart "RETRIEVE" 6 "📚" .deterministic s
  let (s2, results) := execAbilities env s1
    [⟨"knowledge_base_search", "ATLAS"⟩, ⟨"store_data", "internal"⟩]
  finishStage (runSteps s2
    [fun sim =>
      match resultsFind results "knowledge_base_search" with
      | none => .ok sim
      | some v => do
        let r ← jget v "results" (.arr [])
        .ok { sim with st := { sim.st with knowledge_base_results := r } }])

/-- Loop of the DECIDE dict comprehension: each solution entry must be
subscriptable with the solution and score keys. -/
def solutionScoreLoop : List JValue → Except String (List (JValue × JValue))
  | [] => .ok []
  | sol :: rest => do
    let k ← pyIndex sol "solution"
    let v ← pyIndex sol "score"
    let tail ← solutionScoreLoop rest
    .ok ((k, v) :: tail)

/-- The dict comprehension of `stage_07_decide`
(`{sol["solution"]: sol["score"] for sol in solutions}`); the engine only
writes this field, so it is kept as the pair list in iteration order. -/
def solutionScorePairs : JValue → Except String (List (JValue × JValue))
  | .arr sols => solutionScoreLoop sols
  | _ => .error "TypeError: object is not iterable"

/-- Stage 7 DECIDE (`stage_07_decide`): LLM guidance (informational), then
solution evaluation, the provider escalation verdict, and last the hard
threshold rule that forces escalation below a confidence of 90. -/
def stage07Decide (env : Env) (s : Sim) : Sim :=
  let s1 := logStageStart "DECIDE" 7 "⚖" .non_deterministic s
  match env.decideLLM with
  | .error e => logStageComplete false (some e) s1
  | .ok _guidance =>
    let (s2, results) := execAbilities env s1
      [⟨"solution_evaluation", "COMMON"⟩, ⟨"escalation_decision", "ATLAS"⟩,
       ⟨"update_payload", "internal"⟩]
    finishStage (runSteps s2
      [fun sim =>
        match resultsFind results "solution_evaluation" with
        | none => .ok sim
        | some v => do
          let sols ← jget v "solutions" (.arr [])
          let scores ← solutionScorePairs sols
          .ok { sim with st := { sim.st with solution_scores := scores } },
       fun sim =>
        match resultsFind results "solution_evaluation" with
        | none => .ok sim
        | some v => do
          let c ← jget v "best_score" (.num 0)
          .ok { sim with st := { sim.st with confidence_score := c } },
       fun sim =>
        match resultsFind results "escalation_decision" with
        | none => .ok sim
        | some v => do
          let e1 ← jget v "escalate" (.bool false)
          .ok { sim with st := { sim.st with escalation_needed := e1 } },
       fun sim =>
        match resultsFind results "escalation_decision" with
        | none => .ok sim
        | some v => do
          let r ← jget v "reason" (.str "")
          .ok { sim with st := { sim.st with escalation_reason := some r } },
       fun sim => do
        let low ← jlt sim.st.confidence_score 90
        if low then
          .ok { sim with st := { sim.st with
            escalation_needed := .bool true,
            escalation_reason := some (.str ("Low confidence score: " ++
              jformat sim.st.confidence_score)),
            ticket_status := .escalated } }
        else .ok sim])

/-- Stage 8 UPDATE (`stage_08_update`): run the ticket abilities, then set
status RESOLVED exactly when confidence is at least 90 and escalation is not
flagged. -/
def stage08Update (env : Env) (s : Sim) : Sim :=
  let s1 := logStageStart "UPDATE" 8 "🔄" .deterministic s
  let (s2, _results) := execAbilities env s1
    [⟨"update_ticket", "ATLAS"⟩, ⟨"close_ticket", "ATLAS"⟩]
  finishStage (runSteps s2
    [fun sim => do
      let ge ← jge sim.st.confidence_score 90
      if ge && !(jtruthy sim.st.escalation_needed) then
        .ok { sim with st := { sim.st with ticket_status := .resolved } }
      else .ok sim])

/-- Stage 9 CREATE (`stage_09_create`): generate the customer response. -/
def stage09Create (env : Env) (s : Sim) : Sim :=
  let s1 := logStageStart "CREATE" 9 "✍" .deterministic s
  let (s2, results) := execAbilities env s1 [⟨"response_generation", "COMMON"⟩]
  finishStage (runSteps s2
    [fun sim =>
      match resultsFind results "response_generation" with
      | none => .ok sim
      | some v => do
        let r ← jget v "response" (.str "")
        .ok { sim with st := { sim.st with generated_response := some r } }])

/-- Stage 10 DO (`stage_10_do`): execute API calls and notifications. -/
def stage10Do (env : Env) (s : Sim) : Sim :=
  let s1 := logStageStart "DO" 10 "🏃" .deterministic s
  let (s2, results) := execAbilities env s1
    [⟨"execute_api_calls", "ATLAS"⟩, ⟨"trigger_notifications", "ATLAS"⟩]
  finishStage (runSteps s2
    [fun sim =>
      match resultsFind results "execute_api_calls" with
      | none => .ok sim
      | some v => do
        let r ← jget v "api_calls" (.arr [])
        .ok { sim with st := { sim.st with api_calls_executed := r } },
     fun sim =>
      match resultsFind results "trigger_notifications" with
      | none => .ok sim
      | some v => do
        let r ← jget v "notifications" (.arr [])
        .ok { sim with st := { sim.st with notifications_sent := r } }])

/-- Stage 11 COMPLETE (`stage_11_complete`): emit the final payload through
the internal `output_payload` ability and mark processing complete. -/
def stage11Complete (env : Env) (s : Sim) : Sim :=
  let s1 := logStageStart "COMPLETE" 11 "✅" .output_only s
  let (s2, _results) := execAbilities env s1 [⟨"output_payload", "internal"⟩]
  finishStage (runSteps s2
    [fun sim =>
      .ok { sim with st := { sim.st with processing_complete := true } },
     fun sim =>
      .ok { sim with
        st := { sim.st with updated_at := sim.clock }
        clock := sim.clock + 1 }])

/-- Conditional router `_should_wait`: wait only when clarification was
requested and no human response exists yet. -/
def shouldWait (s : Sim) : Bool :=
  s.st.clarification_requested && !(optTruthy s.st.human_response)

/-- Conditional router `_should_escalate`: exit the graph when the
escalation flag is truthy. -/
def shouldEscalate (s : Sim) : Bool := jtruthy s.st.escalation_needed

/-- Fresh `CustomerSupportState` plus the run clock; process start is tick 0
and the two pydantic timestamp defaults take the next ticks. -/
def initSim (inp : InputPayload) : Sim :=
  { st := { input_payload := inp, created_at := 1, updated_at := 2 }, clock := 3 }

/-- The unconditional prefix of the compiled graph
(INTAKE, UNDERSTAND, PREPARE, ASK). -/
def afterAsk (env : Env) (inp : InputPayload) : Sim :=
  stage04Ask env (stage03Prepare env (stage02Understand env
    (stage01Intake env (initSim inp))))

/-- State after RETRIEVE, taking the WAIT branch iff `_should_wait` says so. -/
def afterRetrieve (env : Env) (inp : InputPayload) : Sim :=
  let s := afterAsk env inp
  stage06Retrieve env (if shouldWait s then stage05Wait env s else s)

/-- State after the DECIDE stage. -/
def afterDecide (env : Env) (inp : InputPayload) : Sim :=
  stage07Decide env (afterRetrieve env inp)

/-- State after the UPDATE stage on the continue branch. -/
def afterUpdate (env : Env) (inp : InputPayload) : Sim :=
  stage08Update env (afterDecide env inp)

/-- The compiled LangGraph workflow (`_build_workflow`): sequential stages
with the WAIT branch after ASK; after DECIDE the escalate branch goes
straight to END and the continue branch runs UPDATE, CREATE, DO, COMPLETE. -/
def runWorkflow (env : Env) (inp : InputPayload) : Sim :=
  let s := afterDecide env inp
  if shouldEscalate s then s
  else stage11Complete env (stage10Do env (stage09Create env
    (stage08Update env s)))

/-- Body of `process_ticket`: run the workflow and build the one
`OutputPayload` from the final state. -/
def processTicketBody (env : Env) (inp : InputPayload) : OutputPayload :=
  let startTime := 0
  let final := runWorkflow env inp
  { ticket_id := inp.ticket_id,
    status := final.st.ticket_status,
    response := final.st.generated_response,
    confidence_score := final.st.confidence_score,
    escalation_reason := final.st.escalation_reason,
    stage_logs := final.st.stage_logs,
    final_payload := stateDict final.st,
    processing_time := final.clock - startTime,
    completion_time := final.clock }

/-- The try/finally skeleton of `process_ticket`: whatever the try block
produced (a payload, or a propagating engine error), the finally clause
closes every registered provider, in registry order. -/
def processTicketFinally (body : Except String OutputPayload) :
    Except String OutputPayload × List String :=
  (body, managerCloseOrder)

/-- `process_ticket`: the sole run entry point; returns the one output
payload and the list of provider teardown calls made by the finally
clause. -/
def processTicket (env : Env) (inp : InputPayload) :
    Except String OutputPayload × List String :=
  processTicketFinally (.ok (processTicketBody env inp))

/-- Test provider family for engine runs: the canned source tables with the
two decision abilities parameterised by scenario data — the best solution
score and the provider escalation verdict/reason (the spec treats provider
response content as example data, not engine logic). -/
def testRemote (best : Int) (esc : Bool) (reason : String) :
    String → String → JObj → Nat → Except String JValue :=
  fun server ability payload t =>
    if server = "COMMON" ∧ ability = "solution_evaluation" then
      .ok (.obj [("solutions", .arr
        [.obj [("solution", .str "Send password reset email"), ("score", .num 85)],
         .obj [("solution", .str "Unlock account manually"), ("score", .num 92)],
         .obj [("solution", .str "Escalate to security team"), ("score", .num 40)]]),
        ("best_score", .num best)])
    else if server = "ATLAS" ∧ ability = "escalation_decision" then
      .ok (.obj [("escalate", .bool esc), ("reason", .str reason)])
    else simulateServerCall server ability payload t

/-- Test run environment: parameterised remote handler plus fixed LLM
advisory responses (YES or NO for the clarification question). -/
def testEnv (best : Int) (esc : Bool) (reason : String) (needClar : Bool) :
    Env :=
  { remote := testRemote best esc reason
    askLLM := .ok (if needClar then "YES" else "NO")
    decideLLM := .ok "Proceed with standard resolution." }

/-- Concrete sample ticket (`models.create_sample_input`, with a fixed id in
place of the generated uuid; text transcribed without apostrophes). -/
def sampleInput : InputPayload :=
  { customer_name := "John Smith"
    email := "john.smith@example.com"
    query := "I cannot login to my account. It says my password is incorrect but I am sure it is right. This is urgent as I need to access my account for an important transaction."
    priority := .high
    ticket_id := "ticket-001" }

theorem updateLast_concat {α : Type} (f : α → α) (l : List α) (a : α) :
    updateLast f (l ++ [a]) = l ++ [f a] := by
  induction l with
  | nil => rfl
  | cons x xs ih =>
    cases xs with
    | nil => rfl
    | cons y ys => simpa [updateLast] using ih

theorem containsYES : containsToken (upperStr "YES") "YES" = true := by decide

theorem containsNO : containsToken (upperStr "NO") "YES" = false := by decide

theorem stage01_eq (b : Int) (e : Bool) (r : String) (c : Bool) (sim : Sim) :
    stage01Intake (testEnv b e r c) sim =
    { st := { sim.st with
        current_stage := 1
        stage_logs := sim.st.stage_logs ++
          [{ stage_name := "INTAKE", stage_id := 1, emoji := "📥",
             mode := .entry_only, abilities_executed := [],
             start_time := sim.clock, end_time := some (sim.clock + 1),
             success := true, error := none }] }
      clock := sim.clock + 2 } := by
  simp [stage01Intake, logStageStart, execAbilities, execAbilitiesAux,
    resultsInsert, executeInternalAbility, runSteps, finishStage,
    logStageComplete, modifyLastLog, updateLast_concat]

/-- Canned structured data of `parse_request_text` (COMMON). -/
def parseRequestData : JObj :=
  [("issue_category", .str "Authentication"),
   ("priority_level", .str "High"),
   ("keywords", .arr [.str "login", .str "password", .str "incorrect",
                      .str "urgent", .str "transaction"]),
   ("sentiment", .str "frustrated")]

/-- Canned entities of `extract_entities` (ATLAS). -/
def extractEntitiesData : JObj :=
  [("product", .str "User Account"),
   ("issue_type", .str "Authentication"),
   ("urgency", .str "High"),
   ("account_id", .str "user_12345")]

theorem stage02_eq (b : Int) (e : Bool) (r : String) (c : Bool) (sim : Sim) :
    stage02Understand (testEnv b e r c) sim =
    { st := { sim.st with
        current_stage := 2
        extracted_entities :=
          objUpdate (objUpdate sim.st.extracted_entities parseRequestData)
            extractEntitiesData
        stage_logs := sim.st.stage_logs ++
          [{ stage_name := "UNDERSTAND", stage_id := 2, emoji := "🧠",
             mode := .deterministic,
             abilities_executed :=
              [{ ability_name := "parse_request_text", server_used := "COMMON",
                 execution_time := sim.clock + 1, status := "success",
                 result := some (.obj [("structured_data", .obj parseRequestData)]),
                 error := none },
               { ability_name := "extract_entities", server_used := "ATLAS",
                 execution_time := sim.clock + 2, status := "success",
                 result := some (.obj [("entities", .obj extractEntitiesData)]),
                 error := none }],
             start_time := sim.clock, end_time := some (sim.clock + 3),
             success := true, error := none }] }
      clock := sim.clock + 4 } := by
  simp [stage02Understand, logStageStart, execAbilities, execAbilitiesAux,
    resultsInsert, resultsFind, runSteps, finishStage, logStageComplete,
    modifyLastLog, updateLast_concat, pushExec, managerExecuteAbility,
    managerClients, clientExecuteAbility, simulateServerCall, testEnv,
    testRemote, atlasAbilityResponse, commonAbilityResponse, pyStrTransform,
    inputDict, objLookup, jget, pyUpdate, parseRequestData,
    extractEntitiesData, bind, Except.bind]

/-- Canned normalized fields of `normalize_fields` (COMMON), as a function of
the payload strings and of the tick at which the ability executed. -/
def normalizedData (email priority : String) (t : Nat) : JObj :=
  [("email", .str (stripStr (lowerStr email))),
   ("priority", .str (upperStr priority)),
   ("timestamp", .str (toString t))]

/-- Canned enrichment of `enrich_records` (ATLAS). -/
def enrichRecordsData : JObj :=
  [("sla_info", .obj [("response_time", .str "2 hours"),
                      ("resolution_time", .str "24 hours")]),
   ("historical_tickets", .arr
     [.obj [("ticket_id", .str "T-001"), ("issue", .str "Password reset"),
            ("resolved", .bool true)],
      .obj [("ticket_id", .str "T-002"), ("issue", .str "Account locked"),
            ("resolved", .bool true)]])]

/-- Canned flags of `add_flags_calculations` (COMMON). -/
def flagsData : JObj :=
  [("high_priority", .bool true), ("sla_risk", .bool false),
   ("escalation_score", .num 25)]

theorem stage03_eq (b : Int) (e : Bool) (r : String) (c : Bool) (sim : Sim) :
    stage03Prepare (testEnv b e r c) sim =
    { st := { sim.st with
        current_stage := 3
        normalized_fields := objUpdate sim.st.normalized_fields
          (normalizedData sim.st.input_payload.email
            sim.st.input_payload.priority.value (sim.clock + 1))
        enriched_data :=
          objUpdate (objUpdate sim.st.enriched_data enrichRecordsData) flagsData
        stage_logs := sim.st.stage_logs ++
          [{ stage_name := "PREPARE", stage_id := 3, emoji := "🛠",
             mode := .deterministic,
             abilities_executed :=
              [{ ability_name := "normalize_fields", server_used := "COMMON",
                 execution_time := sim.clock + 1, status := "success",
                 result := some (.obj [("normalized",
                   .obj (normalizedData sim.st.input_payload.email
                     sim.st.input_payload.priority.value (sim.clock + 1)))]),
                 error := none },
               { ability_name := "enrich_records", server_used := "ATLAS",
                 execution_time := sim.clock + 2, status := "success",
                 result := some (.obj enrichRecordsData), error := none },
               { ability_name := "add_flags_calculations",
                 server_used := "COMMON", execution_time := sim.clock + 3,
                 status := "success",
                 result := some (.obj [("flags", .obj flagsData)]),
                 error := none }],
             start_time := sim.clock, end_time := some (sim.clock + 4),
             success := true, error := none }] }
      clock := sim.clock + 5 } := by
  simp [stage03Prepare, logStageStart, execAbilities, execAbilitiesAux,
    resultsInsert, resultsFind, runSteps, finishStage, logStageComplete,
    modifyLastLog, updateLast_concat, pushExec, managerExecuteAbility,
    managerClients, clientExecuteAbility, simulateServerCall, testEnv,
    testRemote, atlasAbilityResponse, commonAbilityResponse, pyStrTransform,
    inputDict, objLookup, jget, pyUpdate, prepareApplyStep, normalizedData,
    enrichRecordsData, flagsData, bind, Except.bind]

theorem stage04_eq_no (b : Int) (e : Bool) (r : String) (sim : Sim) :
    stage04Ask (testEnv b e r false) sim =
    { st := { sim.st with
        current_stage := 4
        stage_logs := sim.st.stage_logs ++
          [{ stage_name := "ASK", stage_id := 4, emoji := "❓",
             mode := .human_interaction, abilities_executed := [],
             start_time := sim.clock, end_time := some (sim.clock + 1),
             success := true, error := none }] }
      clock := sim.clock + 2 } := by
  simp [stage04Ask, testEnv, containsNO, logStageStart, runSteps, finishStage,
    logStageComplete, modifyLastLog, updateLast_concat]

theorem stage04_eq_yes (b : Int) (e : Bool) (r : String) (sim : Sim) :
    stage04Ask (testEnv b e r true) sim =
    { st := { sim.st with
        current_stage := 4
        clarification_requested := true
        clarification_question := some (.str
          "Have you tried using the Forgot Password feature on the login page?")
        stage_logs := sim.st.stage_logs ++
          [{ stage_name := "ASK", stage_id := 4, emoji := "❓",
             mode := .human_interaction,
             abilities_executed :=
              [{ ability_name := "clarify_question", server_used := "ATLAS",
                 execution_time := sim.clock + 1, status := "success",
                 result := some (.obj [("question", .str
                   "Have you tried using the Forgot Password feature on the login page?")]),
                 error := none }],
             start_time := sim.clock, end_time := some (sim.clock + 2),
             success := true, error := none }] }
      clock := sim.clock + 3 } := by
  simp [stage04Ask, testEnv, containsYES, logStageStart, execAbilities,
    execAbilitiesAux, resultsInsert, resultsFind, resultsGetD, runSteps,
    finishStage, logStageComplete, modifyLastLog, updateLast_concat, pushExec,
    managerExecuteAbility, managerClients, clientExecuteAbility,
    simulateServerCall, testRemote, atlasAbilityResponse,
    commonAbilityResponse, pyStrTransform, inputDict, objLookup, jget,
    bind, Except.bind]

theorem stage05_eq (b : Int) (e : Bool) (r : String) (c : Bool) (sim : Sim) :
    stage05Wait (testEnv b e r c) sim =
    { st := { sim.st with
        current_stage := 5
        human_response := some (.str
          "Yes, I tried the forgot password feature but I am not receiving the reset email.")
        stage_logs := sim.st.stage_logs ++
          [{ stage_name := "WAIT", stage_id := 5, emoji := "⏳",
             mode := .deterministic,
             abilities_executed :=
              [{ ability_name := "extract_answer", server_used := "ATLAS",
                 execution_time := sim.clock + 1, status := "success",
                 result := some (.obj [("answer", .str
                   "Yes, I tried the forgot password feature but I am not receiving the reset email.")]),
                 error := none }],
             start_time := sim.clock, end_time := some (sim.clock + 2),
             success := true, error := none }] }
      clock := sim.clock + 3 } := by
  simp [stage05Wait, testEnv, logStageStart, execAbilities, execAbilitiesAux,
    resultsInsert, resultsFind, executeInternalAbility, runSteps, finishStage,
    logStageComplete, modifyLastLog, updateLast_concat, pushExec,
    managerExecuteAbility, managerClients, clientExecuteAbility,
    simulateServerCall, testRemote, atlasAbilityResponse,
    commonAbilityResponse, pyStrTransform, inputDict, objLookup, jget,
    bind, Except.bind]

/-- Canned knowledge-base search results (ATLAS). -/
def kbResultsData : JValue :=
  .arr [.obj [("title", .str "Email delivery issues"),
              ("content", .str "Check spam folder, verify email address, contact support if no email received within 10 minutes"),
              ("relevance", .str "0.95")],
        .obj [("title", .str "Password reset troubleshooting"),
              ("content", .str "Common issues include blocked emails, incorrect email address, or account lockout"),
              ("relevance", .str "0.89")]]

theorem stage06_eq (b : Int) (e : Bool) (r : String) (c : Bool) (sim : Sim) :
    stage06Retrieve (testEnv b e r c) sim =
    { st := { sim.st with
        current_stage := 6
        knowledge_base_results := kbResultsData
        stage_logs := sim.st.stage_logs ++
          [{ stage_name := "RETRIEVE", stage_id := 6, emoji := "📚",
             mode := .deterministic,
             abilities_executed :=
              [{ ability_name := "knowledge_base_search",
                 server_used := "ATLAS", execution_time := sim.clock + 1,
                 status := "success",
                 result := some (.obj [("results", kbResultsData)]),
                 error := none }],
             start_time := sim.clock, end_time := some (sim.clock + 2),
             success := true, error := none }] }
      clock := sim.clock + 3 } := by
  simp [stage06Retrieve, testEnv, logStageStart, execAbilities,
    execAbilitiesAux, resultsInsert, resultsFind, executeInternalAbility,
    runSteps, finishStage, logStageComplete, modifyLastLog, updateLast_concat,
    pushExec, managerExecuteAbility, managerClients, clientExecuteAbility,
    simulateServerCall, testRemote, atlasAbilityResponse,
    commonAbilityResponse, pyStrTransform, inputDict, objLookup, jget,
    kbResultsData, bind, Except.bind]

/-- Canned solutions list of `solution_evaluation` (COMMON). -/
def solutionsArr : JValue :=
  .arr [.obj [("solution", .str "Send password reset email"), ("score", .num 85)],
        .obj [("solution", .str "Unlock account manually"), ("score", .num 92)],
        .obj [("solution", .str "Escalate to security team"), ("score", .num 40)]]

/-- The solution-score pairs produced by the DECIDE dict comprehension. -/
def solutionScoresData : List (JValue × JValue) :=
  [(.str "Send password reset email", .num 85),
   (.str "Unlock account manually", .num 92),
   (.str "Escalate to security team", .num 40)]

/-- The two ability executions recorded by the DECIDE stage under the test
environment. -/
def decideExecs (b : Int) (e : Bool) (r : String) (t : Nat) :
    List AbilityExecution :=
  [{ ability_name := "solution_evaluation", server_used := "COMMON",
     execution_time := t + 1, status := "success",
     result := some (.obj [("solutions", solutionsArr), ("best_score", .num b)]),
     error := none },
   { ability_name := "escalation_decision", server_used := "ATLAS",
     execution_time := t + 2, status := "success",
     result := some (.obj [("escalate", .bool e), ("reason", .str r)]),
     error := none }]

theorem stage07_eq_low (b : Int) (e : Bool) (r : String) (c : Bool) (sim : Sim)
    (hb : b < 90) :
    stage07Decide (testEnv b e r c) sim =
    { st := { sim.st with
        current_stage := 7
        solution_scores := solutionScoresData
        confidence_score := .num b
        escalation_needed := .bool true
        escalation_reason := some (.str ("Low confidence score: " ++ toString b))
        ticket_status := .escalated
        stage_logs := sim.st.stage_logs ++
          [{ stage_name := "DECIDE", stage_id := 7, emoji := "⚖",
             mode := .non_deterministic,
             abilities_executed := decideExecs b e r sim.clock,
             start_time := sim.clock, end_time := some (sim.clock + 3),
             success := true, error := none }] }
      clock := sim.clock + 4 } := by
  simp [stage07Decide, testEnv, logStageStart, execAbilities, execAbilitiesAux,
    resultsInsert, resultsFind, executeInternalAbility, runSteps, finishStage,
    logStageComplete, modifyLastLog, updateLast_concat, pushExec,
    managerExecuteAbility, managerClients, clientExecuteAbility,
    simulateServerCall, testRemote, atlasAbilityResponse,
    commonAbilityResponse, pyStrTransform, inputDict, objLookup, jget,
    solutionScorePairs, solutionScoreLoop, pyIndex, jlt, jformat, solutionsArr,
    solutionScoresData, decideExecs, hb, bind, Except.bind]

theorem stage07_eq_high (b : Int) (e : Bool) (r : String) (c : Bool) (sim : Sim)
    (hb : ¬ b < 90) :
    stage07Decide (testEnv b e r c) sim =
    { st := { sim.st with
        current_stage := 7
        solution_scores := solutionScoresData
        confidence_score := .num b
        escalation_needed := .bool e
        escalation_reason := some (.str r)
        stage_logs := sim.st.stage_logs ++
          [{ stage_name := "DECIDE", stage_id := 7, emoji := "⚖",
             mode := .non_deterministic,
             abilities_executed := decideExecs b e r sim.clock,
             start_time := sim.clock, end_time := some (sim.clock + 3),
             success := true, error := none }] }
      clock := sim.clock + 4 } := by
  simp [stage07Decide, testEnv, logStageStart, execAbilities, execAbilitiesAux,
    resultsInsert, resultsFind, executeInternalAbility, runSteps, finishStage,
    logStageComplete, modifyLastLog, updateLast_concat, pushExec,
    managerExecuteAbility, managerClients, clientExecuteAbility,
    simulateServerCall, testRemote, atlasAbilityResponse,
    commonAbilityResponse, pyStrTransform, inputDict, objLookup, jget,
    solutionScorePairs, solutionScoreLoop, pyIndex, jlt, jformat, solutionsArr,
    solutionScoresData, decideExecs, hb, bind, Except.bind]

/-- The two ability executions recorded by the UPDATE stage under the test
environment. -/
def updateExecs (t : Nat) : List AbilityExecution :=
  [{ ability_name := "update_ticket", server_used := "ATLAS",
     execution_time := t + 1, status := "success",
     result := some (.obj [("ticket_updated", .bool true),
                           ("new_status", .str "In Progress")]),
     error := none },
   { ability_name := "close_ticket", server_used := "ATLAS",
     execution_time := t + 2, status := "success",
     result := some (.obj [("ticket_closed", .bool true),
                           ("closure_reason", .str "Resolved")]),
     error := none }]

theorem stage08_eq_resolve (b : Int) (e : Bool) (r : String) (c : Bool)
    (sim : Sim) (hn : 90 ≤ b)
    (hconf : sim.st.confidence_score = .num b)
    (hesc : sim.st.escalation_needed = .bool false) :
    stage08Update (testEnv b e r c) sim =
    { st := { sim.st with
        current_stage := 8
        ticket_status := .resolved
        stage_logs := sim.st.stage_logs ++
          [{ stage_name := "UPDATE", stage_id := 8, emoji := "🔄",
             mode := .deterministic,
             abilities_executed := updateExecs sim.clock,
             start_time := sim.clock, end_time := some (sim.clock + 3),
             success := true, error := none }] }
      clock := sim.clock + 4 } := by
  simp [stage08Update, testEnv, logStageStart, execAbilities, execAbilitiesAux,
    resultsInsert, resultsFind, runSteps, finishStage, logStageComplete,
    modifyLastLog, updateLast_concat, pushExec, managerExecuteAbility,
    managerClients, clientExecuteAbility, simulateServerCall, testRemote,
    atlasAbilityResponse, commonAbilityResponse, pyStrTransform, inputDict,
    objLookup, jge, jtruthy, updateExecs, hconf, hesc, hn, bind, Except.bind]

theorem stage09_eq (b : Int) (e : Bool) (r : String) (c : Bool) (sim : Sim) :
    stage09Create (testEnv b e r c) sim =
    { st := { sim.st with
        current_stage := 9
        generated_response := some (.str (responseGenerationText
          (.str sim.st.input_payload.customer_name)
          (.str sim.st.input_payload.ticket_id)))
        stage_logs := sim.st.stage_logs ++
          [{ stage_name := "CREATE", stage_id := 9, emoji := "✍",
             mode := .deterministic,
             abilities_executed :=
              [{ ability_name := "response_generation", server_used := "COMMON",
                 execution_time := sim.clock + 1, status := "success",
                 result := some (.obj [("response", .str (responseGenerationText
                   (.str sim.st.input_payload.customer_name)
                   (.str sim.st.input_payload.ticket_id)))]),
                 error := none }],
             start_time := sim.clock, end_time := some (sim.clock + 2),
             success := true, error := none }] }
      clock := sim.clock + 3 } := by
  simp [stage09Create, testEnv, logStageStart, execAbilities, execAbilitiesAux,
    resultsInsert, resultsFind, runSteps, finishStage, logStageComplete,
    modifyLastLog, updateLast_concat, pushExec, managerExecuteAbility,
    managerClients, clientExecuteAbility, simulateServerCall, testRemote,
    atlasAbilityResponse, commonAbilityResponse, pyStrTransform, inputDict,
    objLookup, jget, bind, Except.bind]

/-- Canned api-call results of `execute_api_calls` (ATLAS). -/
def apiCallsData : JValue :=
  .arr [.obj [("api", .str "reset_password_email"), ("status", .str "triggered"),
              ("response", .str "Email sent")],
        .obj [("api", .str "unlock_account"), ("status", .str "success"),
              ("response", .str "Account unlocked")]]

/-- Canned notifications of `trigger_notifications` (ATLAS), as a function of
the payload email value. -/
def notificationsData (email : JValue) : JValue :=
  .arr [.obj [("type", .str "email"), ("recipient", email),
              ("status", .str "sent")],
        .obj [("type", .str "sms"), ("recipient", .str ""),
              ("status", .str "sent")]]

theorem stage10_eq (b : Int) (e : Bool) (r : String) (c : Bool) (sim : Sim) :
    stage10Do (testEnv b e r c) sim =
    { st := { sim.st with
        current_stage := 10
        api_calls_executed := apiCallsData
        notifications_sent := notificationsData (.str sim.st.input_payload.email)
        stage_logs := sim.st.stage_logs ++
          [{ stage_name := "DO", stage_id := 10, emoji := "🏃",
             mode := .deterministic,
             abilities_executed :=
              [{ ability_name := "execute_api_calls", server_used := "ATLAS",
                 execution_time := sim.clock + 1, status := "success",
                 result := some (.obj [("api_calls", apiCallsData)]),
                 error := none },
               { ability_name := "trigger_notifications", server_used := "ATLAS",
                 execution_time := sim.clock + 2, status := "success",
                 result := some (.obj [("notifications",
                   notificationsData (.str sim.st.input_payload.email))]),
                 error := none }],
             start_time := sim.clock, end_time := some (sim.clock + 3),
             success := true, error := none }] }
      clock := sim.clock + 4 } := by
  simp [stage10Do, testEnv, logStageStart, execAbilities, execAbilitiesAux,
    resultsInsert, resultsFind, runSteps, finishStage, logStageComplete,
    modifyLastLog, updateLast_concat, pushExec, managerExecuteAbility,
    managerClients, clientExecuteAbility, simulateServerCall, testRemote,
    atlasAbilityResponse, commonAbilityResponse, pyStrTransform, inputDict,
    objLookup, jget, apiCallsData, notificationsData, bind, Except.bind]

theorem stage11_eq (b : Int) (e : Bool) (r : String) (c : Bool) (sim : Sim) :
    stage11Complete (testEnv b e r c) sim =
    { st := { sim.st with
        current_stage := 11
        processing_complete := true
        updated_at := sim.clock + 1
        stage_logs := sim.st.stage_logs ++
          [{ stage_name := "COMPLETE", stage_id := 11, emoji := "✅",
             mode := .output_only, abilities_executed := [],
             start_time := sim.clock, end_time := some (sim.clock + 2),
             success := true, error := none }] }
      clock := sim.clock + 3 } := by
  simp [stage11Complete, testEnv, logStageStart, execAbilities,
    execAbilitiesAux, resultsInsert, executeInternalAbility, runSteps,
    finishStage, logStageComplete, modifyLastLog, updateLast_concat]

/-- Environment in which the solution evaluation reports best score 40 but
the escalation-decision provider fails, so the DECIDE stage raises while
applying results after the confidence score was already stored. -/
def escFailEnv : Env :=
  { remote := fun server ability payload t =>
      if server = "ATLAS" ∧ ability = "escalation_decision" then
        .error "Escalation service unavailable"
      else testRemote 40 false "" server ability payload t
    askLLM := .ok "NO"
    decideLLM := .ok "Proceed with standard resolution." }

/-- Environment in which the knowledge-base search provider always fails
(spec scenario C) while everything else is canned with best score 92. -/
def kbFailEnv : Env :=
  { remote := fun server ability payload t =>
      if server = "ATLAS" ∧ ability = "knowledge_base_search" then
        .error "Service unavailable"
      else testRemote 92 false "Standard troubleshooting available" server
        ability payload t
    askLLM := .ok "NO"
    decideLLM := .ok "Proceed with standard resolution." }

/-- Python `v.get(key, default)` restricted to the call sites of the simple
agent, where the receiver is always one of the concrete canned dicts; the
non-dict fallback is unreachable there. -/
def jgetD (v : JValue) (key : String) (d : JValue) : JValue :=
  match v with
  | .obj o => (objLookup o key).getD d
  | _ => d

/-- Run state of `SimpleLangGraphAgent.process_ticket`: the ticket state,
the local `stage_logs` list (the simple agent keeps logs in a local, not in
`state.stage_logs`), and the clock. -/
structure SSim where
  st : CustomerSupportState
  logs : List StageLog
  clock : Nat
deriving Repr

/-- The canned `response_generation` text of the simple agent (transcribed
without apostrophe characters). -/
def simpleResponseText (customer ticket : String) : String :=
  "Dear " ++ customer ++ ",\n\n" ++
  "Thank you for contacting support regarding your login issue. \n\n" ++
  "I have identified that your account was temporarily locked due to multiple failed login attempts. I have unlocked your account and sent a password reset email to your registered address.\n\n" ++
  "Please check your inbox (and spam folder) for the reset email. If you do not receive it within 10 minutes, please let us know.\n\n" ++
  "Best regards,\nLangie - Customer Support Agent\nTicket: " ++ ticket

/-- `SimpleLangGraphAgent._simulate_ability`: canned responses, keyed by
ability name, as a function of the input payload, the tick consumed by the
embedded timestamp, and the value `h` standing for the (run-dependent)
Python string hash used for the account id.  Unknown names get the
simulated-status default. -/
def simulateAbilitySimple (ability_name : String) (inp : InputPayload)
    (t : Nat) (h : Int) : JValue :=
  if ability_name = "parse_request_text" then
    .obj [("structured_data", .obj
      [("issue_category", .str "Authentication"),
       ("priority_level", .str "High"),
       ("keywords", .arr [.str "login", .str "password", .str "incorrect",
                          .str "urgent"]),
       ("sentiment", .str "frustrated")])]
  else if ability_name = "extract_entities" then
    .obj [("entities", .obj
      [("product", .str "User Account"),
       ("issue_type", .str "Authentication"),
       ("urgency", .str "High"),
       ("account_id", .str ("user_" ++ toString (h % 10000)))])]
  else if ability_name = "normalize_fields" then
    .obj [("normalized", .obj
      [("email", .str (stripStr (lowerStr inp.email))),
       ("priority", .str (upperStr inp.priority.value)),
       ("timestamp", .str (toString t))])]
  else if ability_name = "enrich_records" then
    .obj [("sla_info", .obj [("response_time", .str "2 hours"),
                             ("resolution_time", .str "24 hours")]),
          ("historical_tickets", .arr
            [.obj [("ticket_id", .str "T-001"),
                   ("issue", .str "Password reset"),
                   ("resolved", .bool true)]])]
  else if ability_name = "add_flags_calculations" then
    .obj [("flags", .obj [("high_priority", .bool true),
                          ("sla_risk", .bool false),
                          ("escalation_score", .num 25)])]
  else if ability_name = "knowledge_base_search" then
    .obj [("results", .arr
      [.obj [("title", .str "Password reset troubleshooting"),
             ("content", .str "Common solutions for password issues"),
             ("relevance", .str "0.92")]])]
  else if ability_name = "solution_evaluation" then
    .obj [("solutions", .arr
      [.obj [("solution", .str "Password reset email"), ("score", .num 85)],
       .obj [("solution", .str "Account unlock"), ("score", .num 92)],
       .obj [("solution", .str "Escalate to security"), ("score", .num 40)]]),
      ("best_score", .num 92)]
  else if ability_name = "response_generation" then
    .obj [("response", .str (simpleResponseText inp.customer_name inp.ticket_id))]
  else
    .obj [("status", .str "simulated"), ("ability", .str ability_name)]

/-- Initial state of a simple-agent run (process start tick, then the two
pydantic timestamp defaults). -/
def simpleInit (inp : InputPayload) : SSim :=
  { st := { input_payload := inp, created_at := 1, updated_at := 2 }
    logs := [], clock := 3 }

/-- Simple agent stage 1 INTAKE: a hand-built success log with the internal
accept-payload execution record. -/
def simpleStage1 (s : SSim) : SSim :=
  let log : StageLog :=
    { stage_name := "INTAKE", stage_id := 1, emoji := "📥",
      mode := .entry_only, start_time := s.clock,
      abilities_executed :=
        [{ ability_name := "accept_payload", server_used := "internal",
           execution_time := s.clock + 1, status := "success",
           result := some (.obj [("status", .str "payload_accepted"),
             ("ticket_id", .str s.st.input_payload.ticket_id)]) }],
      end_time := some (s.clock + 2), success := true }
  { s with logs := s.logs ++ [log], clock := s.clock + 3 }

/-- Simple agent stage 2 UNDERSTAND: two simulated abilities merged into
`extracted_entities`. -/
def simpleStage2 (h : Int) (s : SSim) : SSim :=
  let inp := s.st.input_payload
  let parseResult := simulateAbilitySimple "parse_request_text" inp (s.clock + 1) h
  let entityResult := simulateAbilitySimple "extract_entities" inp (s.clock + 2) h
  let ee := objUpdate s.st.extracted_entities
    (match jgetD parseResult "structured_data" (.obj []) with
     | .obj o => o | _ => [])
  let ee2 := objUpdate ee
    (match jgetD entityResult "entities" (.obj []) with
     | .obj o => o | _ => [])
  let log : StageLog :=
    { stage_name := "UNDERSTAND", stage_id := 2, emoji := "🧠",
      mode := .deterministic, start_time := s.clock,
      abilities_executed :=
        [{ ability_name := "parse_request_text", server_used := "COMMON",
           execution_time := s.clock + 3, status := "success",
           result := some parseResult },
         { ability_name := "extract_entities", server_used := "ATLAS",
           execution_time := s.clock + 4, status := "success",
           result := some entityResult }],
      end_time := some (s.clock + 5), success := true }
  { st := { s.st with extracted_entities := ee2 }
    logs := s.logs ++ [log], clock := s.clock + 6 }

/-- Simple agent stage 3 PREPARE: normalize and enrich. -/
def simpleStage3 (h : Int) (s : SSim) : SSim :=
  let inp := s.st.input_payload
  let normResult := simulateAbilitySimple "normalize_fields" inp (s.clock + 1) h
  let enrichResult := simulateAbilitySimple "enrich_records" inp (s.clock + 2) h
  let flagsResult := simulateAbilitySimple "add_flags_calculations" inp (s.clock + 3) h
  let nf := objUpdate s.st.normalized_fields
    (match jgetD normResult "normalized" (.obj []) with | .obj o => o | _ => [])
  let ed := objUpdate s.st.enriched_data
    (match enrichResult with | .obj o => o | _ => [])
  let ed2 := objUpdate ed
    (match jgetD flagsResult "flags" (.obj []) with | .obj o => o | _ => [])
  let log : StageLog :=
    { stage_name := "PREPARE", stage_id := 3, emoji := "🛠",
      mode := .deterministic, start_time := s.clock,
      abilities_executed :=
        [{ ability_name := "normalize_fields", server_used := "COMMON",
           execution_time := s.clock + 4, status := "success",
           result := some normResult },
         { ability_name := "enrich_records", server_used := "ATLAS",
           execution_time := s.clock + 5, status := "success",
           result := some enrichResult },
         { ability_name := "add_flags_calculations", server_used := "COMMON",
           execution_time := s.clock + 6, status := "success",
           result := some flagsResult }],
      end_time := some (s.clock + 7), success := true }
  { st := { s.st with normalized_fields := nf, enriched_data := ed2 }
    logs := s.logs ++ [log], clock := s.clock + 8 }

/-- Simple agent stage 4 ASK: high and critical priority tickets skip the
clarification request. -/
def simpleStage4 (s : SSim) : SSim :=
  let inp := s.st.input_payload
  let clarificationNeeded :=
    !(inp.priority = .high || inp.priority = .critical)
  let st1 :=
    if clarificationNeeded then
      { s.st with clarification_requested := true
                  clarification_question := some (.str
          "Could you provide more details about when this issue started?") }
    else s.st
  let log : StageLog :=
    { stage_name := "ASK", stage_id := 4, emoji := "❓",
      mode := .human_interaction, start_time := s.clock,
      end_time := some (s.clock + 1), success := true }
  { st := st1, logs := s.logs ++ [log], clock := s.clock + 2 }

/-- Simple agent stage 5 WAIT, run only when clarification was requested:
a simulated human response is stored. -/
def simpleMaybeWait (s : SSim) : SSim :=
  if s.st.clarification_requested then
    let log : StageLog :=
      { stage_name := "WAIT", stage_id := 5, emoji := "⏳",
        mode := .deterministic, start_time := s.clock,
        end_time := some (s.clock + 1), success := true }
    { st := { s.st with human_response := some (.str
        "The issue started this morning when I tried to login for an important transaction.") }
      logs := s.logs ++ [log], clock := s.clock + 2 }
  else s

/-- Simple agent stage 6 RETRIEVE. -/
def simpleStage6 (h : Int) (s : SSim) : SSim :=
  let inp := s.st.input_payload
  let kbResult := simulateAbilitySimple "knowledge_base_search" inp (s.clock + 1) h
  let log : StageLog :=
    { stage_name := "RETRIEVE", stage_id := 6, emoji := "📚",
      mode := .deterministic, start_time := s.clock,
      abilities_executed :=
        [{ ability_name := "knowledge_base_search", server_used := "ATLAS",
           execution_time := s.clock + 2, status := "success",
           result := some kbResult }],
      end_time := some (s.clock + 3), success := true }
  { st := { s.st with
      knowledge_base_results := jgetD kbResult "results" (.arr []) }
    logs := s.logs ++ [log], clock := s.clock + 4 }

/-- Simple agent stage 7 DECIDE: the key decision point.  Confidence below
90 escalates with a percent-suffixed reason; otherwise the status is set to
RESOLVED immediately, inside this stage.  The comprehension error branch is
unreachable on the concrete canned solutions. -/
def simpleStage7 (h : Int) (s : SSim) : SSim :=
  let inp := s.st.input_payload
  let solutionResult := simulateAbilitySimple "solution_evaluation" inp (s.clock + 1) h
  let confidence := jgetD solutionResult "best_score" (.num 0)
  let scores :=
    match solutionScorePairs (jgetD solutionResult "solutions" (.arr [])) with
    | .ok l => l
    | .error _ => []
  let st1 := { s.st with confidence_score := confidence
                         solution_scores := scores }
  let low := match jlt st1.confidence_score 90 with
    | .ok x => x
    | .error _ => false
  let st2 :=
    if low then
      { st1 with escalation_needed := .bool true
                 escalation_reason := some (.str ("Low confidence score: " ++
                   jformat st1.confidence_score ++ "%"))
                 ticket_status := .escalated }
    else { st1 with ticket_status := .resolved }
  let log : StageLog :=
    { stage_name := "DECIDE", stage_id := 7, emoji := "⚖",
      mode := .non_deterministic, start_time := s.clock,
      abilities_executed :=
        [{ ability_name := "solution_evaluation", server_used := "COMMON",
           execution_time := s.clock + 2, status := "success",
           result := some solutionResult }],
      end_time := some (s.clock + 3), success := true }
  { st := st2, logs := s.logs ++ [log], clock := s.clock + 4 }

/-- Simple agent stage 8 UPDATE: log-only (simulated ticket updates). -/
def simpleStage8 (s : SSim) : SSim :=
  let log : StageLog :=
    { stage_name := "UPDATE", stage_id := 8, emoji := "🔄",
      mode := .deterministic, start_time := s.clock,
      end_time := some (s.clock + 1), success := true }
  { s with logs := s.logs ++ [log], clock := s.clock + 2 }

/-- Simple agent stage 9 CREATE: the generated response. -/
def simpleStage9 (h : Int) (s : SSim) : SSim :=
  let inp := s.st.input_payload
  let responseResult := simulateAbilitySimple "response_generation" inp (s.clock + 1) h
  let log : StageLog :=
    { stage_name := "CREATE", stage_id := 9, emoji := "✍",
      mode := .deterministic, start_time := s.clock,
      abilities_executed :=
        [{ ability_name := "response_generation", server_used := "COMMON",
           execution_time := s.clock + 2, status := "success",
           result := some responseResult }],
      end_time := some (s.clock + 3), success := true }
  { st := { s.st with
      generated_response := some (jgetD responseResult "response" (.str "")) }
    logs := s.logs ++ [log], clock := s.clock + 4 }

/-- Simple agent stage 10 DO: simulated api calls and notifications. -/
def simpleStage10 (s : SSim) : SSim :=
  let log : StageLog :=
    { stage_name := "DO", stage_id := 10, emoji := "🏃",
      mode := .deterministic, start_time := s.clock,
      end_time := some (s.clock + 1), success := true }
  let apiCalls : JValue := .arr
    [.obj [("api", .str "unlock_account"), ("status", .str "success")],
     .obj [("api", .str "send_reset_email"), ("status", .str "sent")]]
  let notifications : JValue := .arr
    [.obj [("type", .str "email"),
           ("recipient", .str s.st.input_payload.email),
           ("status", .str "sent")]]
  { st := { s.st with
      api_calls_executed := apiCalls
      notifications_sent := notifications }
    logs := s.logs ++ [log], clock := s.clock + 2 }

/-- Simple agent stage 11 COMPLETE, run on every path. -/
def simpleStage11 (s : SSim) : SSim :=
  let log : StageLog :=
    { stage_name := "COMPLETE", stage_id := 11, emoji := "✅",
      mode := .output_only, start_time := s.clock,
      end_time := some (s.clock + 2), success := true }
  { st := { s.st with processing_complete := true, updated_at := s.clock + 1 }
    logs := s.logs ++ [log], clock := s.clock + 3 }

/-- The simple-agent run up to and including the DECIDE stage (stages 1-7
with the conditional WAIT). -/
def simpleUpToDecide (inp : InputPayload) (h : Int) : SSim :=
  simpleStage7 h (simpleStage6 h (simpleMaybeWait (simpleStage4
    (simpleStage3 h (simpleStage2 h (simpleStage1 (simpleInit inp)))))))

/-- `SimpleLangGraphAgent.process_ticket`: stages 8-10 run only when the
escalation flag is not set; COMPLETE always runs; exactly one
`OutputPayload` is built at the end. -/
def simpleProcessTicket (inp : InputPayload) (h : Int) : OutputPayload :=
  let s7 := simpleUpToDecide inp h
  let s10 :=
    if !(jtruthy s7.st.escalation_needed) then
      simpleStage10 (simpleStage9 h (simpleStage8 s7))
    else s7
  let s11 := simpleStage11 s10
  { ticket_id := inp.ticket_id
    status := s11.st.ticket_status
    response := s11.st.generated_response
    confidence_score := s11.st.confidence_score
    escalation_reason := s11.st.escalation_reason
    stage_logs := s11.logs
    final_payload := stateDict s11.st
    processing_time := s11.clock
    completion_time := s11.clock }

/-- Concrete sample ticket of the simple demo
(`simple_agent.create_sample_ticket`, fixed id, apostrophe-free text). -/
def simpleSampleTicket : InputPayload :=
  { customer_name := "John Smith"
    email := "john.smith@example.com"
    query := "I cannot login to my account. It says my password is incorrect but I am sure it is right. This is urgent as I need to access my account for an important transaction."
    priority := .high
    ticket_id := "ticket-002" }

theorem updateLast_length {α : Type} (f : α → α) (l : List α) :
    (updateLast f l).length = l.length := by
  induction l with
  | nil => rfl
  | cons x xs ih =>
    cases xs with
    | nil => rfl
    | cons y ys => simpa [updateLast] using ih

theorem updateLast_getLast {α : Type} (f : α → α) :
    ∀ (l : List α), l ≠ [] → (updateLast f l).getLast? = l.getLast?.map f
  | [], h => absurd rfl h
  | [_], _ => rfl
  | x :: y :: ys, _ => by
    have ih := updateLast_getLast f (y :: ys) (by simp)
    rw [updateLast, List.getLast?_cons_cons]
    cases ys with
    | nil => simp [updateLast]
    | cons z zs =>
      rw [updateLast] at ih ⊢
      rw [List.getLast?_cons_cons]
      simpa [updateLast] using ih

/-- Number of ability executions recorded in the in-flight (last) stage
log. -/
def lastExecCount (s : Sim) : Nat :=
  match s.st.stage_logs.getLast? with
  | some log => log.abilities_executed.length
  | none => 0

theorem pushExec_lastExecCount (ex : AbilityExecution) (s : Sim)
    (h : s.st.stage_logs ≠ []) :
    lastExecCount (pushExec ex s) = lastExecCount s + 1 := by
  unfold lastExecCount pushExec modifyLastLog
  rw [updateLast_getLast _ _ h]
  cases hg : s.st.stage_logs.getLast? with
  | none => exact absurd (List.getLast?_eq_none_iff.mp hg) h
  | some log => simp

theorem execAbilitiesAux_count (env : Env) (pay : JObj) :
    ∀ (abs : List AbilityConfig) (s : Sim) (acc : AbilityResults),
    s.st.stage_logs ≠ [] →
    lastExecCount (execAbilitiesAux env pay abs s acc).1 =
      lastExecCount s +
        (abs.filter (fun a => !(a.server == "internal"))).length := by
  intro abs
  induction abs with
  | nil => intro s acc _; simp [execAbilitiesAux]
  | cons ab rest ih =>
    intro s acc hne
    by_cases h : ab.server = "internal"
    · simp [execAbilitiesAux, h, ih _ _ hne]
    · have hne2 : (pushExec
          (managerExecuteAbility env.remote ab.server ab.name pay s.clock)
          { s with clock := s.clock + 1 }).st.stage_logs ≠ [] := by
        simp only [pushExec, modifyLastLog]
        intro hc
        apply hne
        have := updateLast_length
          (fun log => { log with abilities_executed := log.abilities_executed ++
            [managerExecuteAbility env.remote ab.server ab.name pay s.clock] })
          s.st.stage_logs
        rw [hc] at this
        exact List.length_eq_zero.mp this.symm
      have hcnt : lastExecCount (pushExec
          (managerExecuteAbility env.remote ab.server ab.name pay s.clock)
          { s with clock := s.clock + 1 }) = lastExecCount s + 1 := by
        have := pushExec_lastExecCount
          (managerExecuteAbility env.remote ab.server ab.name pay s.clock)
          { s with clock := s.clock + 1 } (by simpa using hne)
        simpa [lastExecCount] using this
      simp only [execAbilitiesAux, if_neg h]
      rw [ih _ _ hne2, hcnt]
      simp [h]
      omega

theorem execAbilitiesAux_internal_only (env : Env) (pay : JObj) :
    ∀ (abs : List AbilityConfig) (s : Sim) (acc : AbilityResults),
    (∀ a ∈ abs, a.server = "internal") →
    (execAbilitiesAux env pay abs s acc).1 = s := by
  intro abs
  induction abs with
  | nil => intro s acc _; rfl
  | cons ab rest ih =>
    intro s acc h
    have hab := h ab (by simp)
    simp only [execAbilitiesAux, if_pos hab]
    exact ih _ _ (fun a ha => h a (by simp [ha]))

/-- Claim C5 (confirmed): for every provider id and capability name the
registry execute operation never raises past its boundary (the embedded
function is total and returns an `AbilityExecution`).  In detail: every
result is either a clean success or an error record carrying a message; a
handler that fails on a registered provider yields exactly the ERROR record
with the handler's message and no result; a handler that succeeds yields
exactly the SUCCESS record with the response and no error; and an unknown
provider id yields an error record with the descriptive unknown-server
string. -/
theorem claim_C5
    (remote : String → String → JObj → Nat → Except String JValue)
    (server ability : String) (pay : JObj) (t : Nat) :
    (((managerExecuteAbility remote server ability pay t).status = "success" ∧
      (managerExecuteAbility remote server ability pay t).error = none) ∨
     ((managerExecuteAbility remote server ability pay t).status = "error" ∧
      ((managerExecuteAbility remote server ability pay t).error).isSome = true)) ∧
    (∀ msg : String, server ∈ managerClients →
      remote server ability pay t = .error msg →
      (managerExecuteAbility remote server ability pay t).status = "error" ∧
      (managerExecuteAbility remote server ability pay t).error = some msg ∧
      (managerExecuteAbility remote server ability pay t).result = none) ∧
    (∀ v : JValue, server ∈ managerClients →
      remote server ability pay t = .ok v →
      (managerExecuteAbility remote server ability pay t).status = "success" ∧
      (managerExecuteAbility remote server ability pay t).result = some v ∧
      (managerExecuteAbility remote server ability pay t).error = none) ∧
    (server ∉ managerClients →
      (managerExecuteAbility remote server ability pay t).status = "error" ∧
      (managerExecuteAbility remote server ability pay t).error =
        some ("Unknown server: " ++ server)) := by
  refine ⟨?_, ?_, ?_, ?_⟩
  · by_cases h : server ∈ managerClients
    · cases hr : remote server ability pay t with
      | ok v =>
        left
        simp [managerExecuteAbility, h, clientExecuteAbility, hr]
      | error msg =>
        right
        simp [managerExecuteAbility, h, clientExecuteAbility, hr]
    · right
      simp [managerExecuteAbility, h]
  · intro msg h hr
    simp [managerExecuteAbility, h, clientExecuteAbility, hr]
  · intro v h hr
    simp [managerExecuteAbility, h, clientExecuteAbility, hr]
  · intro h
    simp [managerExecuteAbility, h]

/-- Witness for C5: a handler failing on the registered ATLAS provider is
caught and returned as the ERROR record with its message, and an unknown
provider id produces the unknown-server error record. -/
theorem claim_C5_witness :
    ("ATLAS" ∈ managerClients ∧
     ((managerExecuteAbility (fun _ _ _ _ => .error "boom") "ATLAS"
        "knowledge_base_search" [] 0).status = "error" ∧
      (managerExecuteAbility (fun _ _ _ _ => .error "boom") "ATLAS"
        "knowledge_base_search" [] 0).error = some "boom" ∧
      (managerExecuteAbility (fun _ _ _ _ => .error "boom") "ATLAS"
        "knowledge_base_search" [] 0).result = none)) ∧
    ("MYSTERY" ∉ managerClients ∧
     ((managerExecuteAbility (fun _ _ _ _ => .error "boom") "MYSTERY"
        "normalize_fields" [] 0).status = "error" ∧
      (managerExecuteAbility (fun _ _ _ _ => .error "boom") "MYSTERY"
        "normalize_fields" [] 0).error =
        some ("Unknown server: " ++ "MYSTERY"))) :=
  ⟨⟨by decide,
    (claim_C5 (fun _ _ _ _ => .error "boom") "ATLAS" "knowledge_base_search"
      [] 0).2.1 "boom" (by decide) rfl⟩,
   ⟨by decide,
    (claim_C5 (fun _ _ _ _ => .error "boom") "MYSTERY" "normalize_fields"
      [] 0).2.2.2 (by decide)⟩⟩

/-- Claim C7 (confirmed): an unknown capability name executed against either
remote provider returns the structured ability-not-found result as a success
record rather than failing, and a second execution (at a later tick) returns
the same structured result — the canned lookup is a pure function of its
arguments, so no hidden state is mutated.  For COMMON the payload is the
input-payload dict the engine always passes (its construction evaluates the
normalize string operations first). -/
theorem claim_C7 (ability : String) (pay : JObj) (inp : InputPayload)
    (t1 t2 : Nat) (ha : ability ∉ knownAtlasAbilities)
    (hc : ability ∉ knownCommonAbilities) :
    (managerExecuteAbility simulateServerCall "ATLAS" ability pay t1).result
      = some notFoundResponse ∧
    (managerExecuteAbility simulateServerCall "ATLAS" ability pay t1).status
      = "success" ∧
    (managerExecuteAbility simulateServerCall "ATLAS" ability pay t2).result
      = (managerExecuteAbility simulateServerCall "ATLAS" ability pay t1).result ∧
    (managerExecuteAbility simulateServerCall "COMMON" ability
      (inputDict inp) t1).result = some notFoundResponse ∧
    (managerExecuteAbility simulateServerCall "COMMON" ability
      (inputDict inp) t2).result =
      (managerExecuteAbility simulateServerCall "COMMON" ability
        (inputDict inp) t1).result := by
  simp only [knownAtlasAbilities, knownCommonAbilities, List.mem_cons,
    List.not_mem_nil, or_false, not_or] at ha hc
  obtain ⟨a1, a2, a3, a4, a5, a6, a7, a8, a9, a10⟩ := ha
  obtain ⟨c1, c2, c3, c4, c5⟩ := hc
  simp [managerExecuteAbility, managerClients, clientExecuteAbility,
    simulateServerCall, atlasAbilityResponse, commonAbilityResponse,
    pyStrTransform, inputDict, objLookup, bind, Except.bind,
    a1, a2, a3, a4, a5, a6, a7, a8, a9, a10, c1, c2, c3, c4, c5]

/-- Witness for C7 at a concrete unknown capability name. -/
theorem claim_C7_witness :
    ("reboot_mainframe" ∉ knownAtlasAbilities) ∧
    ("reboot_mainframe" ∉ knownCommonAbilities) ∧
    ((managerExecuteAbility simulateServerCall "ATLAS" "reboot_mainframe"
        [] 0).result = some notFoundResponse ∧
     (managerExecuteAbility simulateServerCall "ATLAS" "reboot_mainframe"
        [] 0).status = "success" ∧
     (managerExecuteAbility simulateServerCall "ATLAS" "reboot_mainframe"
        [] 1).result =
       (managerExecuteAbility simulateServerCall "ATLAS" "reboot_mainframe"
         [] 0).result ∧
     (managerExecuteAbility simulateServerCall "COMMON" "reboot_mainframe"
        (inputDict sampleInput) 0).result = some notFoundResponse ∧
     (managerExecuteAbility simulateServerCall "COMMON" "reboot_mainframe"
        (inputDict sampleInput) 1).result =
       (managerExecuteAbility simulateServerCall "COMMON" "reboot_mainframe"
         (inputDict sampleInput) 0).result) :=
  ⟨by decide, by decide,
   claim_C7 "reboot_mainframe" [] sampleInput 0 1 (by decide) (by decide)⟩

/-- Claim C8 (confirmed): after the run entry point returns — with the try
block producing a payload or an engine error propagating — the finally
clause has invoked every registered provider teardown exactly once (the
close loop releases the two registered clients once each, in registry
order), and each call produces exactly one output payload. -/
theorem claim_C8 (body : Except String OutputPayload) (env : Env)
    (inp : InputPayload) :
    (processTicketFinally body).2.count "ATLAS" = 1 ∧
    (processTicketFinally body).2.count "COMMON" = 1 ∧
    (processTicketFinally body).2 = managerCloseOrder ∧
    (processTicket env inp).2.count "ATLAS" = 1 ∧
    (processTicket env inp).2.count "COMMON" = 1 ∧
    (processTicket env inp).1 = .ok (processTicketBody env inp) :=
  ⟨rfl, rfl, rfl, rfl, rfl, rfl⟩

/-- Claim C9 (confirmed): in `_execute_abilities`, exactly the abilities
dispatched to a non-internal server append an execution record to the
in-flight stage log (the count grows by the number of non-internal entries);
a stage whose ability list is all-internal leaves the run state completely
unchanged; and the COMPLETE stage of a full canned run, which uses only the
internal `output_payload` ability, ends with an empty executions list. -/
theorem claim_C9 :
    (∀ (env : Env) (pay : JObj) (abs : List AbilityConfig) (s : Sim)
       (acc : AbilityResults), s.st.stage_logs ≠ [] →
       lastExecCount (execAbilitiesAux env pay abs s acc).1 =
         lastExecCount s +
           (abs.filter (fun a => !(a.server == "internal"))).length) ∧
    (∀ (env : Env) (pay : JObj) (abs : List AbilityConfig) (s : Sim)
       (acc : AbilityResults), (∀ a ∈ abs, a.server = "internal") →
       (execAbilitiesAux env pay abs s acc).1 = s) ∧
    ((processTicketBody (testEnv 92 false "Standard troubleshooting available"
        false) sampleInput).stage_logs.map
      (fun l => (l.stage_name, l.abilities_executed.length))).getLast? =
      some ("COMPLETE", 0) :=
  ⟨execAbilitiesAux_count, execAbilitiesAux_internal_only, by rfl⟩

/-- A concrete run state with one in-flight stage log, used to instantiate
log-shape hypotheses. -/
def probeSim : Sim :=
  logStageStart "RETRIEVE" 6 "📚" .deterministic (initSim sampleInput)

/-- Witness for C9: one remote plus one internal ability appends exactly one
record, and an all-internal list leaves the state unchanged. -/
theorem claim_C9_witness :
    (probeSim.st.stage_logs ≠ [] ∧
     lastExecCount (execAbilitiesAux (testEnv 92 false "" false)
       (inputDict sampleInput)
       [⟨"knowledge_base_search", "ATLAS"⟩, ⟨"store_data", "internal"⟩]
       probeSim []).1 =
       lastExecCount probeSim +
         (([⟨"knowledge_base_search", "ATLAS"⟩,
            ⟨"store_data", "internal"⟩] : List AbilityConfig).filter
           (fun a => !(a.server == "internal"))).length) ∧
    ((∀ a ∈ ([⟨"store_data", "internal"⟩] : List AbilityConfig),
       a.server = "internal") ∧
     (execAbilitiesAux (testEnv 92 false "" false) (inputDict sampleInput)
       [⟨"store_data", "internal"⟩] probeSim []).1 = probeSim) :=
  ⟨⟨by simp [probeSim, logStageStart, initSim],
    claim_C9.1 (testEnv 92 false "" false) (inputDict sampleInput)
      [⟨"knowledge_base_search", "ATLAS"⟩, ⟨"store_data", "internal"⟩]
      probeSim [] (by simp [probeSim, logStageStart, initSim])⟩,
   ⟨by simp,
    claim_C9.2.1 (testEnv 92 false "" false) (inputDict sampleInput)
      [⟨"store_data", "internal"⟩] probeSim [] (by simp)⟩⟩

/-- Claim C6 (confirmed): when a stage body fails, the stage log is closed
with success false and the (non-empty) error text captured, mutations already
applied stay in place, and the run continues.  The first conjunct is the
closing contract of `_log_stage_complete`; the remaining conjuncts are the
spec scenario C run (a provider that always fails `knowledge_base_search`):
the RETRIEVE log is unsuccessful with the raised AttributeError captured and
the errored execution record still recorded (no rollback), the run still
reaches DECIDE, and one final output payload with the full log list is
produced. -/
theorem claim_C6 :
    (∀ (e : String) (s : Sim), s.st.stage_logs ≠ [] → e ≠ "" →
      (logStageComplete false (some e) s).st.stage_logs.getLast? =
        s.st.stage_logs.getLast?.map (fun log =>
          { log with end_time := some s.clock, success := false,
                     error := some e })) ∧
    ((processTicketBody kbFailEnv sampleInput).stage_logs.map
      (fun l => (l.stage_name, l.success))).get? 4 = some ("RETRIEVE", false) ∧
    ((processTicketBody kbFailEnv sampleInput).stage_logs.map
      (fun l => l.error)).get? 4 =
      some (some "AttributeError: NoneType object has no attribute get") ∧
    ((processTicketBody kbFailEnv sampleInput).stage_logs.map
      (fun l => l.abilities_executed.map
        (fun a => (a.ability_name, a.status)))).get? 4 =
      some [("knowledge_base_search", "error")] ∧
    ((processTicketBody kbFailEnv sampleInput).stage_logs.map
      (fun l => (l.stage_name, l.success))).get? 5 = some ("DECIDE", true) ∧
    (processTicketBody kbFailEnv sampleInput).stage_logs.length = 10 ∧
    (processTicket kbFailEnv sampleInput).1 =
      .ok (processTicketBody kbFailEnv sampleInput) := by
  refine ⟨?_, by rfl, by rfl, by rfl, by rfl, by rfl, by rfl⟩
  intro e s h he
  simp only [logStageComplete, modifyLastLog]
  rw [updateLast_getLast _ _ h]
  cases s.st.stage_logs.getLast? with
  | none => rfl
  | some log => simp [he]

/-- Witness for C6's closing contract at a concrete failed stage. -/
theorem claim_C6_witness :
    (probeSim.st.stage_logs ≠ [] ∧ "boom" ≠ "" ∧
     (logStageComplete false (some "boom") probeSim).st.stage_logs.getLast? =
       probeSim.st.stage_logs.getLast?.map (fun log =>
         { log with end_time := some probeSim.clock, success := false,
                    error := some "boom" })) :=
  ⟨by simp [probeSim, logStageStart, initSim], by decide,
   claim_C6.1 "boom" probeSim (by simp [probeSim, logStageStart, initSim])
     (by decide)⟩

/-- Claim C1 counterexample: a run in which the escalation-decision provider
fails makes the DECIDE stage raise after the confidence score (40, below 90)
was already stored; the engine then does not force escalation — the flag
stays false, no reason is set, and the final status is PENDING instead of
ESCALATED — refuting the claim as stated for every run. -/
theorem claim_C1_counterexample :
    (afterDecide escFailEnv sampleInput).st.confidence_score = .num 40 ∧
    ((40 : Int) < 90) ∧
    (afterDecide escFailEnv sampleInput).st.escalation_needed = .bool false ∧
    (afterDecide escFailEnv sampleInput).st.ticket_status = Status.pending ∧
    (afterDecide escFailEnv sampleInput).st.escalation_reason = none ∧
    (processTicketBody escFailEnv sampleInput).status = Status.pending ∧
    (processTicketBody escFailEnv sampleInput).escalation_reason = none :=
  ⟨rfl, by decide, rfl, rfl, rfl, rfl, rfl⟩

/-- Claim C1 (corrected): whenever the DECIDE stage completes its result
processing without an exception and the stored confidence score is below 90,
the engine forces escalation regardless of the provider verdict: the flag
becomes true, the reason is exactly the low-confidence string with the
score, and the ticket status becomes ESCALATED (also in the final output). -/
theorem claim_C1 (b : Int) (e : Bool) (r : String) (needClar : Bool)
    (inp : InputPayload) (hb : b < 90) :
    (afterDecide (testEnv b e r needClar) inp).st.escalation_needed =
      .bool true ∧
    (afterDecide (testEnv b e r needClar) inp).st.escalation_reason =
      some (.str ("Low confidence score: " ++ toString b)) ∧
    (afterDecide (testEnv b e r needClar) inp).st.ticket_status =
      Status.escalated ∧
    (processTicketBody (testEnv b e r needClar) inp).status =
      Status.escalated ∧
    (processTicketBody (testEnv b e r needClar) inp).escalation_reason =
      some (.str ("Low confidence score: " ++ toString b)) := by
  cases needClar <;>
    simp [processTicketBody, runWorkflow, afterDecide, afterRetrieve,
      afterAsk, initSim, stage01_eq, stage02_eq, stage03_eq, stage04_eq_no,
      stage04_eq_yes, stage05_eq, stage06_eq, stage07_eq_low, shouldWait,
      shouldEscalate, optTruthy, jtruthy, hb]

/-- Witness for C1 at score 40 with a false provider verdict. -/
theorem claim_C1_witness :
    ((40 : Int) < 90) ∧
    ((afterDecide (testEnv 40 false "Standard troubleshooting available"
        false) sampleInput).st.escalation_needed = .bool true ∧
     (afterDecide (testEnv 40 false "Standard troubleshooting available"
        false) sampleInput).st.escalation_reason =
       some (.str ("Low confidence score: " ++ toString (40 : Int))) ∧
     (afterDecide (testEnv 40 false "Standard troubleshooting available"
        false) sampleInput).st.ticket_status = Status.escalated ∧
     (processTicketBody (testEnv 40 false "Standard troubleshooting available"
        false) sampleInput).status = Status.escalated ∧
     (processTicketBody (testEnv 40 false "Standard troubleshooting available"
        false) sampleInput).escalation_reason =
       some (.str ("Low confidence score: " ++ toString (40 : Int)))) :=
  ⟨by decide,
   claim_C1 40 false "Standard troubleshooting available" false sampleInput
     (by decide)⟩

/-- Claim C2 counterexample: in the simple engine, a run with confidence 92
(at least 90) and no escalation requested has ticket status RESOLVED already
at the end of the DECIDE stage, before the UPDATE stage has run (no UPDATE
log exists yet) — status is not set to RESOLVED only by UPDATE. -/
theorem claim_C2_counterexample :
    (simpleUpToDecide simpleSampleTicket 0).st.confidence_score = .num 92 ∧
    (simpleUpToDecide simpleSampleTicket 0).st.escalation_needed =
      .bool false ∧
    (simpleUpToDecide simpleSampleTicket 0).st.ticket_status =
      Status.resolved ∧
    ((simpleUpToDecide simpleSampleTicket 0).logs.map
      (fun l => l.stage_name)).contains "UPDATE" = false ∧
    ((simpleProcessTicket simpleSampleTicket 0).stage_logs.map
      (fun l => l.stage_name)).contains "UPDATE" = true :=
  ⟨rfl, rfl, rfl, rfl, rfl⟩

/-- Claim C2 (corrected): in the LangGraph engine, with confidence at least
90 and no escalation requested, the status is left PENDING at the end of
DECIDE and set to RESOLVED by the UPDATE stage; the simple engine instead
sets RESOLVED inside DECIDE itself, before UPDATE runs. -/
theorem claim_C2 (b : Int) (r : String) (needClar : Bool)
    (inp : InputPayload) (hb : 90 ≤ b) :
    (afterDecide (testEnv b false r needClar) inp).st.ticket_status =
      Status.pending ∧
    (afterUpdate (testEnv b false r needClar) inp).st.ticket_status =
      Status.resolved ∧
    (processTicketBody (testEnv b false r needClar) inp).status =
      Status.resolved ∧
    (simpleUpToDecide simpleSampleTicket 0).st.ticket_status =
      Status.resolved := by
  have hb2 : ¬ b < 90 := not_lt.mpr hb
  cases needClar <;>
    refine ⟨?_, ?_, ?_, rfl⟩ <;>
    simp [processTicketBody, runWorkflow, afterUpdate, afterDecide,
      afterRetrieve, afterAsk, initSim, stage01_eq, stage02_eq, stage03_eq,
      stage04_eq_no, stage04_eq_yes, stage05_eq, stage06_eq, stage07_eq_high,
      stage08_eq_resolve, stage09_eq, stage10_eq, stage11_eq, shouldWait,
      shouldEscalate, optTruthy, jtruthy, hb, hb2]

/-- Witness for C2 at score 95. -/
theorem claim_C2_witness :
    ((90 : Int) ≤ 95) ∧
    ((afterDecide (testEnv 95 false "ok" false) sampleInput).st.ticket_status =
       Status.pending ∧
     (afterUpdate (testEnv 95 false "ok" false) sampleInput).st.ticket_status =
       Status.resolved ∧
     (processTicketBody (testEnv 95 false "ok" false) sampleInput).status =
       Status.resolved ∧
     (simpleUpToDecide simpleSampleTicket 0).st.ticket_status =
       Status.resolved) :=
  ⟨by decide, claim_C2 95 "ok" false sampleInput (by decide)⟩

/-- Claim C3 counterexample: in the LangGraph engine the escalation exit is
taken after DECIDE (score 40) and the COMPLETE stage — the only place the
internal `output_payload` ability is invoked — never runs: no COMPLETE log
exists and the completion flag stays false. -/
theorem claim_C3_counterexample :
    shouldEscalate (afterDecide (testEnv 40 false "why" false) sampleInput) =
      true ∧
    ((processTicketBody (testEnv 40 false "why" false)
        sampleInput).stage_logs.map (fun l => l.stage_name)).contains
      "COMPLETE" = false ∧
    (runWorkflow (testEnv 40 false "why" false)
      sampleInput).st.processing_complete = false :=
  ⟨rfl, rfl, rfl⟩

/-- Claim C3 (corrected): every call to the run entry point produces exactly
one output record, because `process_ticket` itself constructs it after the
graph finishes; however the LangGraph escalation exit goes straight to END
and skips the COMPLETE / `output_payload` step (it runs only on the continue
path), while the simple engine runs its COMPLETE stage on every run. -/
theorem claim_C3 (b : Int) (e : Bool) (r : String) (needClar : Bool)
    (inp : InputPayload) :
    (processTicket (testEnv b e r needClar) inp).1 =
      .ok (processTicketBody (testEnv b e r needClar) inp) ∧
    (b < 90 ∨ e = true →
      ((processTicketBody (testEnv b e r needClar) inp).stage_logs.map
        (fun l => l.stage_name)).contains "COMPLETE" = false ∧
      (runWorkflow (testEnv b e r needClar) inp).st.processing_complete =
        false) ∧
    (¬ b < 90 → e = false →
      ((processTicketBody (testEnv b e r needClar) inp).stage_logs.map
        (fun l => l.stage_name)).contains "COMPLETE" = true ∧
      (runWorkflow (testEnv b e r needClar) inp).st.processing_complete =
        true) ∧
    ((simpleProcessTicket simpleSampleTicket 0).stage_logs.map
      (fun l => l.stage_name)).getLast? = some "COMPLETE" := by
  refine ⟨rfl, ?_, ?_, rfl⟩
  · intro h
    by_cases hb : b < 90
    · cases needClar <;>
        simp [processTicketBody, runWorkflow, afterDecide, afterRetrieve,
          afterAsk, initSim, stage01_eq, stage02_eq, stage03_eq,
          stage04_eq_no, stage04_eq_yes, stage05_eq, stage06_eq,
          stage07_eq_low, shouldWait, shouldEscalate, optTruthy, jtruthy, hb]
    · have he : e = true := h.resolve_left hb
      subst he
      cases needClar <;>
        simp [processTicketBody, runWorkflow, afterDecide, afterRetrieve,
          afterAsk, initSim, stage01_eq, stage02_eq, stage03_eq,
          stage04_eq_no, stage04_eq_yes, stage05_eq, stage06_eq,
          stage07_eq_high, shouldWait, shouldEscalate, optTruthy, jtruthy, hb]
  · intro hb he
    subst he
    have hb2 : (90 : Int) ≤ b := not_lt.mp hb
    cases needClar <;>
      simp [processTicketBody, runWorkflow, afterDecide, afterRetrieve,
        afterAsk, initSim, stage01_eq, stage02_eq, stage03_eq, stage04_eq_no,
        stage04_eq_yes, stage05_eq, stage06_eq, stage07_eq_high,
        stage08_eq_resolve, stage09_eq, stage10_eq, stage11_eq, shouldWait,
        shouldEscalate, optTruthy, jtruthy, hb, hb2]

/-- Witness for C3 on both branch families. -/
theorem claim_C3_witness :
    (((40 : Int) < 90 ∨ false = true) ∧
     (((processTicketBody (testEnv 40 false "why" false)
         sampleInput).stage_logs.map (fun l => l.stage_name)).contains
       "COMPLETE" = false ∧
      (runWorkflow (testEnv 40 false "why" false)
        sampleInput).st.processing_complete = false)) ∧
    ((¬ (95 : Int) < 90) ∧
     (((processTicketBody (testEnv 95 false "why" false)
         sampleInput).stage_logs.map (fun l => l.stage_name)).contains
       "COMPLETE" = true ∧
      (runWorkflow (testEnv 95 false "why" false)
        sampleInput).st.processing_complete = true)) :=
  ⟨⟨Or.inl (by decide),
    (claim_C3 40 false "why" false sampleInput).2.1 (Or.inl (by decide))⟩,
   ⟨by decide,
    (claim_C3 95 false "why" false sampleInput).2.2.1 (by decide) rfl⟩⟩

/-- Claim C4 counterexample: the escalated LangGraph run without a WAIT
branch produces six stage logs, not at least nine as claimed (the escalation
exit also skips COMPLETE, so logs are INTAKE, UNDERSTAND, PREPARE, ASK,
RETRIEVE, DECIDE). -/
theorem claim_C4_counterexample :
    (processTicketBody (testEnv 40 false "why" false)
      sampleInput).stage_logs.length = 6 ∧
    ¬ (9 ≤ (processTicketBody (testEnv 40 false "why" false)
      sampleInput).stage_logs.length) :=
  ⟨rfl, by decide⟩

/-- Claim C4 (corrected): every run produces between 6 and 11 stage logs
(6 or 7 on the escalation exit, 10 or 11 on the continue path), and the WAIT
log is present exactly when clarification was requested and no human
response existed at the ASK branch point. -/
theorem claim_C4 (b : Int) (e : Bool) (r : String) (needClar : Bool)
    (inp : InputPayload) :
    6 ≤ (processTicketBody (testEnv b e r needClar) inp).stage_logs.length ∧
    (processTicketBody (testEnv b e r needClar) inp).stage_logs.length ≤ 11 ∧
    ((processTicketBody (testEnv b e r needClar) inp).stage_logs.map
      (fun l => l.stage_name)).contains "WAIT" =
      ((afterAsk (testEnv b e r needClar) inp).st.clarification_requested &&
        !(optTruthy (afterAsk (testEnv b e r needClar)
          inp).st.human_response)) := by
  by_cases hb : b < 90
  · cases e <;> cases needClar <;>
      simp [processTicketBody, runWorkflow, afterDecide, afterRetrieve,
        afterAsk, initSim, stage01_eq, stage02_eq, stage03_eq, stage04_eq_no,
        stage04_eq_yes, stage05_eq, stage06_eq, stage07_eq_low, shouldWait,
        shouldEscalate, optTruthy, jtruthy, hb]
  · have hb2 : (90 : Int) ≤ b := not_lt.mp hb
    cases e <;> cases needClar <;>
      simp [processTicketBody, runWorkflow, afterDecide, afterRetrieve,
        afterAsk, initSim, stage01_eq, stage02_eq, stage03_eq, stage04_eq_no,
        stage04_eq_yes, stage05_eq, stage06_eq, stage07_eq_high,
        stage08_eq_resolve, stage09_eq, stage10_eq, stage11_eq, shouldWait,
        shouldEscalate, optTruthy, jtruthy, hb, hb2]

/-- Claim C10 (confirmed): with confidence at least 90 but a provider
verdict to escalate, the post-DECIDE branch is governed by the escalation
flag: the engine takes the escalation exit (the workflow ends at the DECIDE
state; UPDATE, CREATE, DO never run and RESOLVED is never set), the ticket
status remains PENDING, and the escalation reason is the provider-supplied
one. -/
theorem claim_C10 (b : Int) (r : String) (needClar : Bool)
    (inp : InputPayload) (hb : 90 ≤ b) :
    shouldEscalate (afterDecide (testEnv b true r needClar) inp) = true ∧
    runWorkflow (testEnv b true r needClar) inp =
      afterDecide (testEnv b true r needClar) inp ∧
    (afterDecide (testEnv b true r needClar) inp).st.escalation_needed =
      .bool true ∧
    (processTicketBody (testEnv b true r needClar) inp).status =
      Status.pending ∧
    (processTicketBody (testEnv b true r needClar) inp).escalation_reason =
      some (.str r) ∧
    ((processTicketBody (testEnv b true r needClar) inp).stage_logs.map
      (fun l => l.stage_name)).contains "UPDATE" = false ∧
    ((processTicketBody (testEnv b true r needClar) inp).stage_logs.map
      (fun l => l.stage_name)).contains "CREATE" = false ∧
    ((processTicketBody (testEnv b true r needClar) inp).stage_logs.map
      (fun l => l.stage_name)).contains "DO" = false := by
  have hb2 : ¬ b < 90 := not_lt.mpr hb
  cases needClar <;>
    simp [processTicketBody, runWorkflow, afterDecide, afterRetrieve,
      afterAsk, initSim, stage01_eq, stage02_eq, stage03_eq, stage04_eq_no,
      stage04_eq_yes, stage05_eq, stage06_eq, stage07_eq_high, shouldWait,
      shouldEscalate, optTruthy, jtruthy, hb2]

/-- Witness for C10 at score 95 with a provider-forced escalation. -/
theorem claim_C10_witness :
    ((90 : Int) ≤ 95) ∧
    (shouldEscalate (afterDecide (testEnv 95 true "needs human" false)
        sampleInput) = true ∧
     runWorkflow (testEnv 95 true "needs human" false) sampleInput =
       afterDecide (testEnv 95 true "needs human" false) sampleInput ∧
     (afterDecide (testEnv 95 true "needs human" false)
        sampleInput).st.escalation_needed = .bool true ∧
     (processTicketBody (testEnv 95 true "needs human" false)
        sampleInput).status = Status.pending ∧
     (processTicketBody (testEnv 95 true "needs human" false)
        sampleInput).escalation_reason = some (.str "needs human") ∧
     ((processTicketBody (testEnv 95 true "needs human" false)
        sampleInput).stage_logs.map (fun l => l.stage_name)).contains
       "UPDATE" = false ∧
     ((processTicketBody (testEnv 95 true "needs human" false)
        sampleInput).stage_logs.map (fun l => l.stage_name)).contains
       "CREATE" = false ∧
     ((processTicketBody (testEnv 95 true "needs human" false)
        sampleInput).stage_logs.map (fun l => l.stage_name)).contains
       "DO" = false) :=
  ⟨by decide, claim_C10 95 "needs human" false sampleInput (by decide)⟩
